import Mathlib

/-! Focus-timer background worker (`src/distraction_blocker/background.js`).

A shallow embedding of the service worker that owns the study/break timer, the
settings record, the persisted timer record and the table of dynamic redirect
rules, together with the part of the popup (`popup.js`) that builds the settings
record sent by the settings form, the page-level guard of the content script
(`content.js`), and the text utilities `cleanText` and `extractRequirements` of
the resume scanner (`src/resume_scanner/utils/parser.js`).

Conventions of the embedding.

* Clock values are integers in milliseconds, as returned by `Date.now()`; every
  call of `Date.now()` in the source is an explicit argument of the function that
  makes the call.
* The worker's globals and the browser facilities it talks to (the two storage
  areas, the dynamic rule table, the interval timers, the message channel) are
  the fields of `World`.
* An `async` function of the source is a function `World → Result α`: it either
  completes with a value or throws, and in both cases the mutations made so far
  stay in place. Each handler runs as one step.
* Strings are sequences of characters; the method `toLowerCase` is a parameter
  of the functions that call it.
-/

namespace DistractionBlocker

/-! ## Data model -/

/-- The value of a numeric property of a JS object that may be missing:
`undefined` (property absent), `NaN`, or an integer. -/
inductive JsNum where
  | undefined : JsNum
  | nan : JsNum
  | num (n : Int) : JsNum
  deriving DecidableEq, Repr

/-- The JS postfix increment `x++` on a property holding `x`: a number is
increased by one, `undefined` and `NaN` both become `NaN`. -/
def JsNum.incr : JsNum → JsNum
  | JsNum.num n => JsNum.num (n + 1)
  | JsNum.undefined => JsNum.nan
  | JsNum.nan => JsNum.nan

/-- The settings record kept under the key `settings` of `chrome.storage.sync`. -/
structure Settings where
  studyTime : Int
  breakTime : Int
  blockedSites : List String
  soundEnabled : Bool
  sessionsCompleted : JsNum
  deriving DecidableEq, Repr

/-- The constant `DEFAULT_SETTINGS` (background.js, lines 9-25). -/
def DEFAULT_SETTINGS : Settings :=
  { studyTime := 25
    breakTime := 5
    blockedSites :=
      ["youtube.com", "instagram.com", "reddit.com", "twitter.com", "x.com",
       "tiktok.com", "facebook.com", "netflix.com", "twitch.tv"]
    soundEnabled := true
    sessionsCompleted := JsNum.num 0 }

/-- The global `timerState` (background.js, lines 28-36). `endTime` is `null`
or a clock value in milliseconds; `intervalId` is `null` or the handle returned
by `setInterval`. -/
structure TimerState where
  isRunning : Bool
  isPaused : Bool
  isStudySession : Bool
  endTime : Option Int
  timeRemaining : Int
  totalTime : Int
  intervalId : Option Nat
  deriving DecidableEq, Repr

/-- The initial value of `timerState`, also the value assigned by `resetTimer`. -/
def initialTimerState : TimerState :=
  { isRunning := false
    isPaused := false
    isStudySession := true
    endTime := none
    timeRemaining := 0
    totalTime := 0
    intervalId := none }

/-- One dynamic rule of `chrome.declarativeNetRequest`, with the fields the
worker writes: `action.type`, `action.redirect.extensionPath`,
`condition.urlFilter` and `condition.resourceTypes`. -/
structure Rule where
  id : Nat
  priority : Nat
  actionType : String
  extensionPath : String
  urlFilter : String
  resourceTypes : List String
  deriving DecidableEq, Repr

/-- A message broadcast by the worker with `chrome.runtime.sendMessage`. -/
inductive Notification where
  | timerTick (timerState : TimerState) : Notification
  | sessionEnded (type : String) : Notification
  deriving DecidableEq, Repr

/-- The worker's globals and the browser state it reads and writes.

* `timerState`: the in-memory global.
* `syncSettings`: the value under `settings` in `chrome.storage.sync`.
* `localTimerState`: the value under `timerState` in `chrome.storage.local`.
* `dynamicRules`: the installed dynamic rules.
* `activeIntervals`, `nextIntervalId`: the live `setInterval` timers and the
  handle the next `setInterval` call returns.
* `sent`: the broadcast messages, most recent first.
* `localFails`, `rulesFail`: whether writes to `chrome.storage.local`, and calls
  of the rule facility, reject. -/
structure World where
  timerState : TimerState
  syncSettings : Option Settings
  localTimerState : Option TimerState
  dynamicRules : List Rule
  activeIntervals : List Nat
  nextIntervalId : Nat
  sent : List Notification
  localFails : Bool
  rulesFail : Bool
  deriving DecidableEq, Repr

/-- The world right after the worker script has been loaded in a fresh browser
profile: default globals, empty stores, no rules, no timers. -/
def initialWorld : World :=
  { timerState := initialTimerState
    syncSettings := none
    localTimerState := none
    dynamicRules := []
    activeIntervals := []
    nextIntervalId := 1
    sent := []
    localFails := false
    rulesFail := false }

/-! ## Asynchronous functions -/

/-- Outcome of running an `async` function: it returned `a`, or it threw; in
both cases `w` is the world it left behind. -/
inductive Result (α : Type) where
  | ok (a : α) (w : World) : Result α
  | threw (w : World) : Result α
  deriving DecidableEq, Repr

/-- The world an outcome leaves behind. -/
def Result.world {α : Type} : Result α → World
  | Result.ok _ w => w
  | Result.threw w => w

/-- The value returned, if the function did not throw. -/
def Result.value {α : Type} : Result α → Option α
  | Result.ok a _ => some a
  | Result.threw _ => none

/-- An `async` function of the worker. -/
def Js (α : Type) : Type := World → Result α

/-- Run an asynchronous function in a world. -/
def Js.run {α : Type} (m : Js α) (w : World) : Result α := m w

/-- Return a value without touching the world. -/
def Js.pure {α : Type} (a : α) : Js α := fun w => Result.ok a w

/-- Sequencing (`await`): a throw of the first part skips the rest. -/
def Js.bind {α β : Type} (m : Js α) (f : α → Js β) : Js β := fun w =>
  match m w with
  | Result.ok a w1 => f a w1
  | Result.threw w1 => Result.threw w1

instance : Monad Js where
  pure := Js.pure
  bind := Js.bind

/-- Read the global `timerState`. -/
def getTimerState : Js TimerState := fun w => Result.ok w.timerState w

/-- Assign to the global `timerState` (or to some of its fields). -/
def setTimerState (t : TimerState) : Js Unit := fun w =>
  Result.ok () { w with timerState := t }

/-! ## Browser facilities -/

/-- JS `ToNumber` on `timerState.endTime`: `null` counts as `0`. -/
def toNumber : Option Int → Int
  | some n => n
  | none => 0

/-- JS truthiness of an interval handle: `null` and `0` are falsy. -/
def truthy : Option Nat → Bool
  | some n => n != 0
  | none => false

/-- The call `chrome.storage.sync.get('settings')`, giving `res.settings`. -/
def storageSyncGet : Js (Option Settings) := fun w => Result.ok w.syncSettings w

/-- The call `chrome.storage.sync.set` with a `settings` record. -/
def storageSyncSet (settings : Settings) : Js Unit := fun w =>
  Result.ok () { w with syncSettings := some settings }

/-- The call `chrome.storage.local.get('timerState')`. -/
def storageLocalGet : Js (Option TimerState) := fun w =>
  Result.ok w.localTimerState w

/-- The call `chrome.storage.local.set` with a `timerState` record; rejects
when the store is failing. -/
def storageLocalSet (t : TimerState) : Js Unit := fun w =>
  if w.localFails then Result.threw w
  else Result.ok () { w with localTimerState := some t }

/-- The call `chrome.declarativeNetRequest.getDynamicRules()`. -/
def getDynamicRules : Js (List Rule) := fun w =>
  if w.rulesFail then Result.threw w else Result.ok w.dynamicRules w

/-- The call `chrome.declarativeNetRequest.updateDynamicRules` with
`removeRuleIds` and `addRules`: the rules whose id is listed are removed, then
the new rules are added; the call rejects, changing nothing, when an added rule
has the id of a rule that stays or of another added rule. -/
def updateDynamicRules (removeRuleIds : List Nat) (addRules : List Rule) : Js Unit :=
  fun w =>
    let kept := w.dynamicRules.filter (fun r => !(removeRuleIds.contains r.id))
    if w.rulesFail then Result.threw w
    else if ((kept ++ addRules).map (fun r => r.id)).Nodup then
      Result.ok () { w with dynamicRules := kept ++ addRules }
    else Result.threw w

/-- The call `setInterval(callback, 1000)`: a fresh handle, now live. -/
def setInterval : Js Nat := fun w =>
  Result.ok w.nextIntervalId
    { w with activeIntervals := w.nextIntervalId :: w.activeIntervals
             nextIntervalId := w.nextIntervalId + 1 }

/-- The call `clearInterval(id)`: the timer with that handle, if any, stops. -/
def clearInterval (id : Option Nat) : Js Unit := fun w =>
  match id with
  | some n => Result.ok () { w with activeIntervals := w.activeIntervals.filter (fun k => k != n) }
  | none => Result.ok () w

/-- The call `chrome.runtime.sendMessage(..).catch(() => {})`: the message is
broadcast and a delivery error is swallowed. -/
def sendMessage (n : Notification) : Js Unit := fun w =>
  Result.ok () { w with sent := n :: w.sent }

/-! ## The worker (background.js) -/

/-- Update the global `timerState` in place. -/
def modifyTimerState (f : TimerState → TimerState) : Js Unit := fun w =>
  Result.ok () { w with timerState := f w.timerState }

/-- The function `getSettings` (lines 233-236): the stored record, or
`DEFAULT_SETTINGS` when none is stored. -/
def getSettings : Js Settings := do
  let res ← storageSyncGet
  pure (res.getD DEFAULT_SETTINGS)

/-- The function `saveTimerState` (lines 238-241): the record written is the
global with `intervalId` replaced by `null`. -/
def saveTimerState : Js Unit := do
  let t ← getTimerState
  storageLocalSet { t with intervalId := none }

/-- The two rules built for the site at index `i` (lines 214-227). -/
def siteRules (site : String) (i : Nat) : List Rule :=
  [ { id := i * 2 + 1
      priority := 1
      actionType := "redirect"
      extensionPath := "/blocked.html"
      urlFilter := "*://" ++ site ++ "/*"
      resourceTypes := ["main_frame"] },
    { id := i * 2 + 2
      priority := 1
      actionType := "redirect"
      extensionPath := "/blocked.html"
      urlFilter := "*://*." ++ site ++ "/*"
      resourceTypes := ["main_frame"] } ]

/-- The expression `sites.flatMap((site, i) => ..)` for the part of the array that
starts at index `i`. -/
def newRulesFrom (i : Nat) : List String → List Rule
  | [] => []
  | site :: rest => siteRules site i ++ newRulesFrom (i + 1) rest

/-- The array `newRules` of `updateBlockingRules`. -/
def newRules (blockedSites : List String) : List Rule := newRulesFrom 0 blockedSites

/-- The function `updateBlockingRules` (lines 204-230). -/
def updateBlockingRules (enable : Bool) : Js Unit := do
  let settings ← getSettings
  let rules ← getDynamicRules
  if rules.length != 0 then
    updateDynamicRules (rules.map (fun r => r.id)) []
  if enable then
    updateDynamicRules [] (newRules settings.blockedSites)

/-- The function `startTimerInterval` (lines 120-142) without the body of the
callback, which is `timerTick`: nothing happens when a handle is already held,
otherwise a timer is created and its handle stored. -/
def startTimerInterval : Js Unit := do
  let t ← getTimerState
  if truthy t.intervalId then
    pure ()
  else
    let id ← setInterval
    modifyTimerState (fun t => { t with intervalId := some id })

/-- The function `handleSessionEnd` (lines 145-176); `now` is the value of
`Date.now()` read in it. The increment acts on the object returned by
`getSettings`, which is written to the store in the same branch. -/
def handleSessionEnd (now : Int) : Js Unit := do
  let settings ← getSettings
  let t ← getTimerState
  if t.isStudySession then
    let settings := { settings with sessionsCompleted := settings.sessionsCompleted.incr }
    storageSyncSet settings
    modifyTimerState (fun t =>
      { t with isStudySession := false
               totalTime := settings.breakTime * 60
               endTime := some (now + settings.breakTime * 60 * 1000) })
    updateBlockingRules false
    sendMessage (Notification.sessionEnded "study")
  else
    modifyTimerState (fun t =>
      { t with isStudySession := true
               totalTime := settings.studyTime * 60
               endTime := some (now + settings.studyTime * 60 * 1000) })
    updateBlockingRules true
    sendMessage (Notification.sessionEnded "break")
  startTimerInterval

/-- The callback passed to `setInterval` (lines 123-141), run once per second
while its timer is live. `now` is the clock read for `diff`, `nowEnd` the clock
read by `handleSessionEnd` when the session ends in this tick. For the positive
divisor `1000` integer division rounds down, as `Math.floor` does. -/
def timerTick (now nowEnd : Int) : Js Unit := do
  let t ← getTimerState
  if !t.isRunning || t.isPaused then
    pure ()
  else
    let diff := (toNumber t.endTime - now) / 1000
    modifyTimerState (fun t => { t with timeRemaining := max diff 0 })
    let t ← getTimerState
    sendMessage (Notification.timerTick t)
    if t.timeRemaining ≤ 0 then
      clearInterval t.intervalId
      modifyTimerState (fun t => { t with intervalId := none })
      handleSessionEnd nowEnd
    saveTimerState

/-- The function `startStudySession` (lines 106-118). -/
def startStudySession (now : Int) : Js Unit := do
  let settings ← getSettings
  modifyTimerState (fun t =>
    { t with isRunning := true
             isPaused := false
             isStudySession := true
             totalTime := settings.studyTime * 60
             endTime := some (now + settings.studyTime * 60 * 1000) })
  updateBlockingRules true
  saveTimerState
  startTimerInterval

/-- The function `skipSession` (lines 179-185). -/
def skipSession (now : Int) : Js Unit := do
  let t ← getTimerState
  if !t.isRunning then
    pure ()
  else
    clearInterval t.intervalId
    modifyTimerState (fun t => { t with intervalId := none })
    handleSessionEnd now

/-- The function `resetTimer` (lines 188-201). -/
def resetTimer : Js Unit := do
  let t ← getTimerState
  clearInterval t.intervalId
  setTimerState initialTimerState
  updateBlockingRules false
  saveTimerState

/-- A request received by the worker, by its `action`. -/
inductive Message where
  | getState : Message
  | startTimer : Message
  | pauseTimer : Message
  | resumeTimer : Message
  | resetTimer : Message
  | skipSession : Message
  | updateSettings (settings : Settings) : Message
  | other : Message
  deriving DecidableEq, Repr

/-- The argument of `sendResponse`. -/
inductive Response where
  | state (timerState : TimerState) (settings : Settings) : Response
  | success : Response
  deriving DecidableEq, Repr

/-- The function `handleMessage` (lines 62-103). The value is the response
sent, `none` when the handler returns without calling `sendResponse`; a handler
that throws sends no response. `now` is the clock read by the handlers that
call `Date.now()`. -/
def handleMessage (msg : Message) (now : Int) : Js (Option Response) :=
  match msg with
  | Message.getState => do
      let settings ← getSettings
      let t ← getTimerState
      pure (some (Response.state t settings))
  | Message.startTimer => do
      startStudySession now
      pure (some Response.success)
  | Message.pauseTimer => do
      modifyTimerState (fun t => { t with isPaused := true })
      saveTimerState
      pure (some Response.success)
  | Message.resumeTimer => do
      modifyTimerState (fun t => { t with isPaused := false })
      startTimerInterval
      saveTimerState
      pure (some Response.success)
  | Message.resetTimer => do
      resetTimer
      pure (some Response.success)
  | Message.skipSession => do
      skipSession now
      pure (some Response.success)
  | Message.updateSettings settings => do
      storageSyncSet settings
      pure (some Response.success)
  | Message.other => pure none

/-- The listener of `chrome.runtime.onInstalled` (lines 39-45). -/
def onInstalled : Js Unit := do
  let settings ← storageSyncGet
  if settings.isNone then
    storageSyncSet DEFAULT_SETTINGS
  let t ← getTimerState
  storageLocalSet t

/-- The listener of `chrome.runtime.onStartup` (lines 48-54). -/
def onStartup : Js Unit := do
  let stored ← storageLocalGet
  match stored with
  | some t =>
      if t.isRunning then
        setTimerState t
        startTimerInterval
  | none => pure ()

/-- The listener of `chrome.alarms.onAlarm` (lines 245-249). -/
def onAlarm : Js Unit := do
  let t ← getTimerState
  if t.isRunning && !truthy t.intervalId then
    startTimerInterval

/-! ## The settings form (popup.js) -/

/-- The expression `parseInt(value) || d`: `value` is the result of `parseInt`
(`none` for `NaN`); `NaN` and `0` are falsy. -/
def parseIntOr (value : Option Int) (d : Int) : Int :=
  match value with
  | some n => if n = 0 then d else n
  | none => d

/-- The function `handleSaveSettings` (popup.js, lines 315-354) up to the
message it sends: the `settings` of the `updateSettings` request, or `none`
when validation stops the save. The record has no `sessionsCompleted` property. -/
def handleSaveSettings (studyInput breakInput : Option Int) (soundChecked : Bool)
    (currentSettings : Option Settings) : Option Settings :=
  let newSettings : Settings :=
    { studyTime := parseIntOr studyInput 25
      breakTime := parseIntOr breakInput 5
      soundEnabled := soundChecked
      blockedSites := (currentSettings.map (fun s => s.blockedSites)).getD []
      sessionsCompleted := JsNum.undefined }
  if newSettings.studyTime < 1 || newSettings.studyTime > 120 then none
  else if newSettings.breakTime < 1 || newSettings.breakTime > 30 then none
  else some newSettings

/-! ## Observations used to state properties -/

/-- The settings record the worker is working with: what `getSettings` returns. -/
def currentSettings (w : World) : Settings := w.syncSettings.getD DEFAULT_SETTINGS

/-- The world an asynchronous function leaves behind when run in `w`. -/
def after {α : Type} (m : Js α) (w : World) : World := (m.run w).world

/-- The two timed phases. -/
inductive Phase where
  | Focus : Phase
  | Break : Phase
  deriving DecidableEq, Repr

/-- Whether the countdown is not started, advancing, or paused. -/
inductive Activity where
  | Idle : Activity
  | Running : Activity
  | Paused : Activity
  deriving DecidableEq, Repr

/-- The phase a timer state is in, as `updateTimerDisplay` of the popup reads
it: `isStudySession` means study time, otherwise break time. -/
def phase (t : TimerState) : Phase :=
  if t.isStudySession then Phase.Focus else Phase.Break

/-- The activity of a timer state, as `handleMainButton` of the popup reads it:
not `isRunning` offers Start, `isRunning` and `isPaused` offers Resume, otherwise
Pause. -/
def activity (t : TimerState) : Activity :=
  if !t.isRunning then Activity.Idle
  else if t.isPaused then Activity.Paused
  else Activity.Running

/-- A session with the default settings in a fresh profile: started at clock
value `0`, ticked at 10 s. -/
def startedSession : World :=
  after (timerTick 10000 10000) (after (handleMessage Message.startTimer 0) initialWorld)

/-- The session `startedSession`, paused at 10 s. -/
def pausedSession : World :=
  after (handleMessage Message.pauseTimer 10000) startedSession

/-- The session `pausedSession`, resumed at 70 s, one minute after the pause. -/
def resumedSession : World :=
  after (handleMessage Message.resumeTimer 70000) pausedSession

/-- A settings record that differs from the default one in its list of
blocked sites. -/
def exampleSettings : Settings :=
  { DEFAULT_SETTINGS with blockedSites := ["example.com"] }

/-- A profile in which three focus sessions have been completed: the stored
settings record is the default one with `sessionsCompleted` equal to 3. -/
def threeSessionsWorld : World :=
  { initialWorld with
      syncSettings := some { DEFAULT_SETTINGS with sessionsCompleted := JsNum.num 3 } }

/-- The `updateSettings` request the settings form sends in `threeSessionsWorld`
when 25 and 5 minutes are entered and the sound toggle is on. -/
def formSettings : Option Settings :=
  handleSaveSettings (some 25) (some 5) true threeSessionsWorld.syncSettings

/-! ## Restart, steps and further observations -/

/-- The worker script loaded again after the browser was closed: the global
`timerState` is the literal of lines 28-36 again and the timers of the old
process are gone; the two storage areas and the dynamic rules persist. -/
def workerLoaded (w : World) : World :=
  { w with timerState := initialTimerState
           activeIntervals := []
           nextIntervalId := 1 }

/-- One step of the scheduler: a command of the popup with the clock value at
which it is handled, one run of the tick callback with its two clock readings,
or a restart of the browser followed by the startup listener. -/
inductive Step where
  | start (now : Int) : Step
  | pause (now : Int) : Step
  | resume (now : Int) : Step
  | reset (now : Int) : Step
  | skip (now : Int) : Step
  | tick (now nowEnd : Int) : Step
  | recovery : Step
  deriving DecidableEq, Repr

/-- The world after one step. -/
def Step.apply : Step → World → World
  | Step.start now, w => after (handleMessage Message.startTimer now) w
  | Step.pause now, w => after (handleMessage Message.pauseTimer now) w
  | Step.resume now, w => after (handleMessage Message.resumeTimer now) w
  | Step.reset now, w => after (handleMessage Message.resetTimer now) w
  | Step.skip now, w => after (handleMessage Message.skipSession now) w
  | Step.tick now nowEnd, w => after (timerTick now nowEnd) w
  | Step.recovery, w => after onStartup (workerLoaded w)

/-- The world after a sequence of steps, first step first. -/
def runSteps : List Step → World → World
  | [], w => w
  | s :: rest, w => runSteps rest (s.apply w)

/-- The world after a sequence of runs of the tick callback, each given by its
two clock readings. -/
def runTicks : List (Int × Int) → World → World
  | [], w => w
  | t :: rest, w => runTicks rest (after (timerTick t.1 t.2) w)

/-- Whether a broadcast message is a `sessionEnded` notification. -/
def isSessionEnded : Notification → Bool
  | Notification.sessionEnded _ => true
  | Notification.timerTick _ => false

/-- The number of phase transitions announced so far: the `sessionEnded`
notifications among the broadcast messages. -/
def transitions (w : World) : Nat := (w.sent.filter isSessionEnded).length

/-- The configured duration in minutes of the phase a timer state is in. -/
def phaseMinutes (settings : Settings) (t : TimerState) : Int :=
  if t.isStudySession then settings.studyTime else settings.breakTime

/-- The first rule of the site `h` at index `i`: the bare host on any path. -/
def hostRule (h : String) (i : Nat) : Rule :=
  { id := i * 2 + 1
    priority := 1
    actionType := "redirect"
    extensionPath := "/blocked.html"
    urlFilter := "*://" ++ h ++ "/*"
    resourceTypes := ["main_frame"] }

/-- The second rule of the site `h` at index `i`: any subdomain of the host. -/
def subdomainRule (h : String) (i : Nat) : Rule :=
  { id := i * 2 + 2
    priority := 1
    actionType := "redirect"
    extensionPath := "/blocked.html"
    urlFilter := "*://*." ++ h ++ "/*"
    resourceTypes := ["main_frame"] }

/-- The session of the example after the browser was closed at some point and
opened again: the persisted record is Running in Focus with `endTime`
1500000 ms. -/
def recoveredSession : World := Step.apply Step.recovery startedSession

/-- The recovered session after its first tick, 90 s past the persisted
`endTime`. -/
def recoveredAfterFirstTick : World :=
  after (timerTick 1590000 1590000) recoveredSession

/-- The initial Idle world of a profile whose stored settings record is
`stored` (`none` when nothing is stored yet). -/
def idleWorld (stored : Option Settings) : World :=
  { initialWorld with syncSettings := stored }

/-- A timer record has its deadline: when it is running, `endTime` is not
`null` and `totalTime` is the duration that `settings` configures for the phase
of the record, times 60. -/
def hasDeadline (settings : Settings) (t : TimerState) : Prop :=
  t.isRunning = true → t.endTime ≠ none ∧ t.totalTime = phaseMinutes settings t * 60

/-- The invariant of the scheduler for the durations of `settings`: the
configured durations are those of `settings`, no facility is failing, and both
the in-memory timer state and the persisted record have their deadline. -/
def deadlineInvariant (settings : Settings) (w : World) : Prop :=
  (currentSettings w).studyTime = settings.studyTime
    ∧ (currentSettings w).breakTime = settings.breakTime
    ∧ w.localFails = false
    ∧ w.rulesFail = false
    ∧ hasDeadline settings w.timerState
    ∧ ∀ r : TimerState, w.localTimerState = some r → hasDeadline settings r

/-- The states reached from the initial Idle world of a profile with the stored
settings record `stored` by a sequence of steps. -/
def Reachable (stored : Option Settings) (w : World) : Prop :=
  ∃ steps : List Step, w = runSteps steps (idleWorld stored)

/-- The states reached as in `Reachable` by steps none of which is a restart of
the browser. -/
def ReachableWithoutRestart (stored : Option Settings) (w : World) : Prop :=
  ∃ steps : List Step, Step.recovery ∉ steps ∧ w = runSteps steps (idleWorld stored)

/-- The handle held and the live timers agree: either no handle is held and no
timer is live, or the handle held is that of the one live timer. -/
def driverMatchesHandle (w : World) : Prop :=
  (w.timerState.intervalId = none ∧ w.activeIntervals = [])
    ∨ ∃ id : Nat, id ≠ 0 ∧ w.timerState.intervalId = some id ∧ w.activeIntervals = [id]

/-- Exactly one driver is live and its handle is held. -/
def oneDriverHeld (w : World) : Prop :=
  ∃ id : Nat, w.timerState.intervalId = some id ∧ w.activeIntervals = [id]

/-- The invariant of the driver: no facility is failing, handles start at 1,
the handle held and the live timers agree, a running state holds a handle, and
the persisted record carries no handle. -/
def driverInvariant (w : World) : Prop :=
  w.localFails = false
    ∧ w.rulesFail = false
    ∧ 1 ≤ w.nextIntervalId
    ∧ driverMatchesHandle w
    ∧ (w.timerState.isRunning = true → w.timerState.intervalId ≠ none)
    ∧ ∀ r : TimerState, w.localTimerState = some r → r.intervalId = none

/-- The invariant of the rule table for the site list `sites`: the configured
sites are `sites`, no facility is failing, and the installed table is the rule
set of `sites` when the timer is running in a study session and empty
otherwise. -/
def rulesInvariant (sites : List String) (w : World) : Prop :=
  (currentSettings w).blockedSites = sites
    ∧ w.localFails = false
    ∧ w.rulesFail = false
    ∧ w.dynamicRules
        = if w.timerState.isRunning && w.timerState.isStudySession then newRules sites else []

/-- The world `w` with a local store that rejects writes. -/
def withFailingStore (w : World) : World := { w with localFails := true }

/-- The world `w` with a rule facility that rejects every call. -/
def withFailingRules (w : World) : World := { w with rulesFail := true }

/-! ## The page-level guard (content.js) -/

/-- The expression `s.replace(/^www\./, '')`: a leading `www.` is removed. -/
def removeLeadingWww (s : String) : String :=
  if "www.".data.isPrefixOf s.data then String.mk (s.data.drop 4) else s

/-- The expression `s.endsWith(suffix)`. -/
def endsWith (s suffix : String) : Bool := suffix.data.isSuffixOf s.data

/-- The callback of `settings.blockedSites.some(..)` in `checkIfBlocked`
(content.js, lines 23-27) for the lower-cased host name `currentHost`.
`toLowerCase` stands for the method `String.prototype.toLowerCase`. -/
def isBlockedSite (toLowerCase : String → String) (currentHost site : String) : Bool :=
  let siteClean := removeLeadingWww (toLowerCase site)
  let hostClean := removeLeadingWww currentHost
  hostClean == siteClean || endsWith hostClean ("." ++ siteClean)

/-- The function `checkIfBlocked` (content.js, lines 8-37) for the answer
`response` of the worker to `getState` (`none` when the request fails, which
the `catch` swallows) and the host name of the page; the value tells whether
the page is redirected to `blocked.html`. An answer without `timerState` makes
the property access throw, which the `catch` swallows as well. -/
def checkIfBlocked (toLowerCase : String → String) (response : Option Response)
    (hostname : String) : Bool :=
  match response with
  | none => false
  | some Response.success => false
  | some (Response.state timerState settings) =>
      if !timerState.isRunning || timerState.isPaused || !timerState.isStudySession then
        false
      else
        let currentHost := toLowerCase hostname
        settings.blockedSites.any (fun site => isBlockedSite toLowerCase currentHost site)

/-- The content script on a page with host name `hostname`, asking the worker
in world `w`: whether the page is redirected. -/
def pageIsRedirected (toLowerCase : String → String) (w : World) (now : Int)
    (hostname : String) : Bool :=
  checkIfBlocked toLowerCase ((handleMessage Message.getState now).run w).value.join hostname

end DistractionBlocker

/-! ## Text utilities of the resume scanner (`src/resume_scanner/utils/parser.js`) -/

namespace ResumeScanner

/-- The line feed character. -/
def lineFeed : Char := Char.ofNat 10

/-- The class `\s` of a JS regular expression, which is also what `trim`
removes: tab, line feed, vertical tab, form feed, carriage return, space,
no-break space, the Unicode space separators, the line and paragraph
separators and the byte order mark. -/
def isWhiteSpace (c : Char) : Bool :=
  let n := c.toNat
  (9 ≤ n && n ≤ 13) || n == 32 || n == 160 || n == 5760 || (8192 ≤ n && n ≤ 8202)
    || n == 8232 || n == 8233 || n == 8239 || n == 8287 || n == 12288 || n == 65279

/-- The expression `text.replace(/\s+/g, ' ')` on the characters after the
current position; `inRun` tells whether the previous character was white
space, in which case the run has already been replaced. -/
def replaceWhiteSpaceRuns (inRun : Bool) : List Char → List Char
  | [] => []
  | c :: cs =>
      if isWhiteSpace c then
        if inRun then replaceWhiteSpaceRuns true cs
        else Char.ofNat 32 :: replaceWhiteSpaceRuns true cs
      else c :: replaceWhiteSpaceRuns false cs

/-- The replacement of a run of `n` line feeds by `/\n{3,}/g`: two line feeds
for a run of three or more, the run itself otherwise. -/
def lineFeedRun (n : Nat) : List Char :=
  List.replicate (if 3 ≤ n then 2 else n) lineFeed

/-- The expression `text.replace(/\n{3,}/g, '\n\n')` on the characters after
the current position; `pending` is the length of the run of line feeds read so
far. -/
def replaceLineFeedRuns (pending : Nat) : List Char → List Char
  | [] => lineFeedRun pending
  | c :: cs =>
      if c = lineFeed then replaceLineFeedRuns (pending + 1) cs
      else lineFeedRun pending ++ c :: replaceLineFeedRuns 0 cs

/-- The method `trim`: white space is removed at both ends. -/
def trim (cs : List Char) : List Char :=
  ((cs.dropWhile isWhiteSpace).reverse.dropWhile isWhiteSpace).reverse

/-- The function `cleanText` (parser.js, lines 42-51). The argument is `none`
for a value that is not a string; the empty string is falsy. -/
def cleanText (text : Option String) : String :=
  match text with
  | none => ""
  | some t =>
      if t.data.isEmpty then ""
      else String.mk (trim (replaceLineFeedRuns 0 (replaceWhiteSpaceRuns false t.data)))

/-- The constant `requirementKeywords` of `extractRequirements`. -/
def requirementKeywords : List String :=
  ["requirements", "qualifications", "must have", "required", "essential",
   "minimum requirements"]

/-- The expression `text.split('\n')` on the characters of `text`. -/
def splitLineFeed : List Char → List (List Char)
  | [] => [[]]
  | c :: cs =>
      if c = lineFeed then [] :: splitLineFeed cs
      else
        match splitLineFeed cs with
        | line :: rest => (c :: line) :: rest
        | [] => [[c]]

/-- The expression `lines.join('\n')`. -/
def joinLineFeed : List (List Char) → List Char
  | [] => []
  | [line] => line
  | line :: next :: rest => line ++ lineFeed :: joinLineFeed (next :: rest)

/-- The expression `line.includes(keyword)` on characters. -/
def includes (keyword : List Char) : List Char → Bool
  | [] => keyword.isEmpty
  | c :: cs => keyword.isPrefixOf (c :: cs) || includes keyword cs

/-- The test of the loop body of `extractRequirements` (lines 76-77): the
lower-cased line includes some keyword. `toLowerCase` stands for the method
`String.prototype.toLowerCase`. -/
def hasKeyword (toLowerCase : String → String) (line : List Char) : Bool :=
  requirementKeywords.any (fun keyword => includes keyword.data (toLowerCase (String.mk line)).data)

/-- The loop of `extractRequirements` (lines 75-81) from index `i` on, over the
lines not yet visited: the index at which the loop breaks, `none` when
`requirementsStart` stays `-1`. -/
def requirementsStart (toLowerCase : String → String) (i : Nat) :
    List (List Char) → Option Nat
  | [] => none
  | line :: rest =>
      if hasKeyword toLowerCase line then some i
      else requirementsStart toLowerCase (i + 1) rest

/-- The function `extractRequirements` (parser.js, lines 58-88) on a string. -/
def extractRequirements (toLowerCase : String → String) (jobDescription : String) : String :=
  if jobDescription.data.isEmpty then ""
  else
    match requirementsStart toLowerCase 0 (splitLineFeed jobDescription.data) with
    | some start => String.mk (joinLineFeed ((splitLineFeed jobDescription.data).drop start))
    | none => jobDescription

/-- Lower-casing of the ASCII letters, used to run the functions on ASCII
examples. -/
def asciiLower (s : String) : String := String.mk (s.data.map Char.toLower)

end ResumeScanner

namespace DistractionBlocker

/-- The settings record that the settings form sends when 25 and 5 minutes are
entered with the sound toggle on and the default sites listed: it has no
`sessionsCompleted` property. -/
def formRecord : Settings :=
  { studyTime := 25
    breakTime := 5
    blockedSites := DEFAULT_SETTINGS.blockedSites
    soundEnabled := true
    sessionsCompleted := JsNum.undefined }

/-- A Focus session started at 1 s in the profile `threeSessionsWorld` after the
settings form has been saved there at clock value 0. -/
def formSavedSession : World :=
  after (handleMessage Message.startTimer 1000)
    (after (handleMessage (Message.updateSettings formRecord) 0) threeSessionsWorld)

/-- The recovered session of the example after the install listener has run in
it, as it does when the browser starts after an update. -/
def staleHandleWorld : World := after onInstalled recoveredSession

/-! ## Running the asynchronous functions -/

@[simp] theorem run_bind {α β : Type} (m : Js α) (f : α → Js β) (w : World) :
    (m >>= f).run w =
      match m.run w with
      | Result.ok a w1 => (f a).run w1
      | Result.threw w1 => Result.threw w1 := rfl

@[simp] theorem run_pure {α : Type} (a : α) (w : World) :
    (pure a : Js α).run w = Result.ok a w := rfl

@[simp] theorem run_ite {α : Type} (c : Prop) [Decidable c] (m1 m2 : Js α) (w : World) :
    (if c then m1 else m2).run w = if c then m1.run w else m2.run w := by
  split <;> rfl

@[simp] theorem getTimerState_run (w : World) :
    getTimerState.run w = Result.ok w.timerState w := rfl

@[simp] theorem setTimerState_run (t : TimerState) (w : World) :
    (setTimerState t).run w = Result.ok () { w with timerState := t } := rfl

@[simp] theorem modifyTimerState_run (f : TimerState → TimerState) (w : World) :
    (modifyTimerState f).run w = Result.ok () { w with timerState := f w.timerState } := rfl

@[simp] theorem storageSyncGet_run (w : World) :
    storageSyncGet.run w = Result.ok w.syncSettings w := rfl

@[simp] theorem storageSyncSet_run (s : Settings) (w : World) :
    (storageSyncSet s).run w = Result.ok () { w with syncSettings := some s } := rfl

@[simp] theorem storageLocalGet_run (w : World) :
    storageLocalGet.run w = Result.ok w.localTimerState w := rfl

theorem storageLocalSet_run (t : TimerState) (w : World) :
    (storageLocalSet t).run w =
      if w.localFails then Result.threw w
      else Result.ok () { w with localTimerState := some t } := rfl

@[simp] theorem setInterval_run (w : World) :
    setInterval.run w = Result.ok w.nextIntervalId
      { w with activeIntervals := w.nextIntervalId :: w.activeIntervals
               nextIntervalId := w.nextIntervalId + 1 } := rfl

@[simp] theorem clearInterval_run (id : Option Nat) (w : World) :
    (clearInterval id).run w =
      Result.ok ()
        { w with activeIntervals :=
                   match id with
                   | some n => w.activeIntervals.filter (fun k => k != n)
                   | none => w.activeIntervals } := by
  cases id <;> rfl

@[simp] theorem sendMessage_run (n : Notification) (w : World) :
    (sendMessage n).run w = Result.ok () { w with sent := n :: w.sent } := rfl

@[simp] theorem getSettings_run (w : World) :
    getSettings.run w = Result.ok (currentSettings w) w := rfl

theorem saveTimerState_run (w : World) (h : w.localFails = false) :
    saveTimerState.run w =
      Result.ok ()
        { w with localTimerState := some { w.timerState with intervalId := none } } := by
  simp only [saveTimerState, run_bind, getTimerState_run, storageLocalSet_run, h]
  rfl

theorem startTimerInterval_run (w : World) :
    startTimerInterval.run w =
      if truthy w.timerState.intervalId then Result.ok () w
      else Result.ok ()
        { w with timerState := { w.timerState with intervalId := some w.nextIntervalId }
                 activeIntervals := w.nextIntervalId :: w.activeIntervals
                 nextIntervalId := w.nextIntervalId + 1 } := by
  simp only [startTimerInterval, run_bind, getTimerState_run]
  split <;> simp_all

/-! ## The rule table -/

theorem filter_own_ids (rules : List Rule) :
    rules.filter (fun r => !((rules.map (fun r => r.id)).contains r.id)) = [] := by
  rw [List.filter_eq_nil_iff]
  intro r hr
  simp
  exact ⟨r, hr, rfl⟩

theorem newRulesFrom_ids (sites : List String) (i : Nat) :
    (newRulesFrom i sites).map (fun r => r.id)
      = List.range' (i * 2 + 1) (2 * sites.length) := by
  induction sites generalizing i with
  | nil => simp [newRulesFrom]
  | cons site rest ih =>
    have h : 2 * (site :: rest).length = (2 * rest.length + 1) + 1 := by simp; omega
    rw [h, List.range'_succ, List.range'_succ]
    simp [newRulesFrom, siteRules, ih]
    omega

theorem newRules_ids_nodup (sites : List String) :
    ((newRules sites).map (fun r => r.id)).Nodup := by
  rw [newRules, newRulesFrom_ids]
  exact List.nodup_range' _ _

theorem getDynamicRules_run (w : World) (h : w.rulesFail = false) :
    getDynamicRules.run w = Result.ok w.dynamicRules w := by
  simp [getDynamicRules, Js.run, h]

theorem updateDynamicRules_removeAll_run (w : World) (h : w.rulesFail = false) :
    (updateDynamicRules (w.dynamicRules.map (fun r => r.id)) []).run w =
      Result.ok () { w with dynamicRules := [] } := by
  simp only [updateDynamicRules, Js.run, h, filter_own_ids]
  simp

theorem updateDynamicRules_add_run (w : World) (h : w.rulesFail = false)
    (hEmpty : w.dynamicRules = []) (sites : List String) :
    (updateDynamicRules [] (newRules sites)).run w =
      Result.ok () { w with dynamicRules := newRules sites } := by
  simp only [updateDynamicRules, Js.run, h, hEmpty]
  simp [newRules_ids_nodup]

theorem updateBlockingRules_true_run (w : World) (h : w.rulesFail = false) :
    (updateBlockingRules true).run w =
      Result.ok () { w with dynamicRules := newRules (currentSettings w).blockedSites } := by
  simp only [updateBlockingRules, run_bind, getSettings_run, getDynamicRules_run w h]
  by_cases hl : w.dynamicRules = []
  · simp [hl, updateDynamicRules_add_run w h hl]
  · simp [hl, updateDynamicRules_removeAll_run w h]
    exact updateDynamicRules_add_run { w with dynamicRules := [] } h rfl _

theorem updateBlockingRules_false_run (w : World) (h : w.rulesFail = false) :
    (updateBlockingRules false).run w = Result.ok () { w with dynamicRules := [] } := by
  simp only [updateBlockingRules, run_bind, getSettings_run, getDynamicRules_run w h]
  by_cases hl : w.dynamicRules = []
  · cases w
    simp_all
  · simp [hl, updateDynamicRules_removeAll_run w h]

/-! ## Commands -/

/-- C1. `start()`: for every stored settings record and every clock value `now`,
the start command (in particular from Idle) reports success and leaves the timer
in phase Focus, Running (`isRunning` true, `isPaused` false), with
`totalTime = studyTime * 60` seconds and `endTime = now + totalTime * 1000`
milliseconds; the duration is that of the stored record, and 25 minutes when no
record is stored. -/
theorem start_sets_focus_running (w : World) (now : Int)
    (hl : w.localFails = false) (hr : w.rulesFail = false) :
    ((handleMessage Message.startTimer now).run w).value = some (some Response.success)
      ∧ phase (after (handleMessage Message.startTimer now) w).timerState = Phase.Focus
      ∧ activity (after (handleMessage Message.startTimer now) w).timerState = Activity.Running
      ∧ (after (handleMessage Message.startTimer now) w).timerState.isRunning = true
      ∧ (after (handleMessage Message.startTimer now) w).timerState.isPaused = false
      ∧ (after (handleMessage Message.startTimer now) w).timerState.endTime
          = some (now + (after (handleMessage Message.startTimer now) w).timerState.totalTime * 1000)
      ∧ (∀ s : Settings, w.syncSettings = some s →
          (after (handleMessage Message.startTimer now) w).timerState.totalTime = s.studyTime * 60)
      ∧ (w.syncSettings = none →
          (after (handleMessage Message.startTimer now) w).timerState.totalTime = 25 * 60) := by
  by_cases ht : truthy w.timerState.intervalId = true <;>
  simp [handleMessage, startStudySession, updateBlockingRules_true_run, saveTimerState_run, hl, hr,
    startTimerInterval_run, ht, Result.world, Result.value, after, phase, activity] <;>
  constructor <;> intros <;> simp_all [currentSettings, DEFAULT_SETTINGS]

/-- Witness of C1 in a fresh profile, where no settings record is stored: the
session started at clock value `0` is Running in Focus for 1500 seconds. -/
theorem start_sets_focus_running_witness :
    initialWorld.localFails = false ∧ initialWorld.rulesFail = false
      ∧ activity (after (handleMessage Message.startTimer 0) initialWorld).timerState
          = Activity.Running
      ∧ (after (handleMessage Message.startTimer 0) initialWorld).timerState.totalTime = 25 * 60 :=
  ⟨rfl, rfl, (start_sets_focus_running initialWorld 0 rfl rfl).2.2.1,
    (start_sets_focus_running initialWorld 0 rfl rfl).2.2.2.2.2.2.2 rfl⟩

/-- C2, evaluated on the code: start at 0 s with 25 minutes, pause at 10 s with
1490 seconds remaining, resume at 70 s. The resume command leaves `endTime` at
1500000 ms, the value set by start, where the claim requires
70000 + 1490 * 1000 = 1560000 ms; the tick at 71 s then shows 1429 seconds
remaining, where the claim requires 1500 - 10 - 1 = 1489: the minute spent
paused is counted against the phase. -/
theorem resume_keeps_endTime_of_start :
    activity pausedSession.timerState = Activity.Paused
      ∧ pausedSession.timerState.timeRemaining = 1490
      ∧ activity resumedSession.timerState = Activity.Running
      ∧ resumedSession.timerState.endTime = some 1500000
      ∧ (after (timerTick 71000 71000) resumedSession).timerState.timeRemaining = 1429 := by
  decide

/-- C3. `pause()`: for every Running state the pause command reports success
and leaves activity Paused; the only field of the timer state that changes is
`isPaused`, so `endTime`, the phase and `totalTime` are as before, and so are
the stored settings record and the installed rule table. The timer state is
written through to the local store. -/
theorem pause_changes_only_isPaused (w : World) (now : Int)
    (hRun : activity w.timerState = Activity.Running) (hl : w.localFails = false) :
    (handleMessage Message.pauseTimer now).run w
        = Result.ok (some Response.success)
            { w with timerState := { w.timerState with isPaused := true }
                     localTimerState :=
                       some { w.timerState with isPaused := true, intervalId := none } }
      ∧ activity (after (handleMessage Message.pauseTimer now) w).timerState = Activity.Paused
      ∧ (after (handleMessage Message.pauseTimer now) w).timerState.endTime = w.timerState.endTime
      ∧ phase (after (handleMessage Message.pauseTimer now) w).timerState = phase w.timerState
      ∧ (after (handleMessage Message.pauseTimer now) w).timerState.totalTime
          = w.timerState.totalTime
      ∧ (after (handleMessage Message.pauseTimer now) w).syncSettings = w.syncSettings
      ∧ (after (handleMessage Message.pauseTimer now) w).dynamicRules = w.dynamicRules := by
  have hr : w.timerState.isRunning = true := by
    revert hRun
    cases h : w.timerState.isRunning <;> simp [activity, h]
  simp [handleMessage, saveTimerState_run, hl, after, Result.world, phase, activity, hr]

/-- Witness of C3: the session of the example is Running, and pausing it leaves
it Paused with the `endTime` set by start. -/
theorem pause_changes_only_isPaused_witness :
    activity startedSession.timerState = Activity.Running
      ∧ startedSession.localFails = false
      ∧ activity (after (handleMessage Message.pauseTimer 10000) startedSession).timerState
          = Activity.Paused
      ∧ (after (handleMessage Message.pauseTimer 10000) startedSession).timerState.endTime
          = startedSession.timerState.endTime :=
  ⟨by decide, by decide,
    (pause_changes_only_isPaused startedSession 10000 (by decide) (by decide)).2.1,
    (pause_changes_only_isPaused startedSession 10000 (by decide) (by decide)).2.2.1⟩

/-- C4. `reset()`: for every timer state and every installed rule table the
reset command reports success and leaves the timer state equal to the initial
one, that is phase Focus, activity Idle (`isRunning` false, `isPaused` false),
`endTime` null, and leaves no rule installed. -/
theorem reset_yields_idle_focus_no_rules (w : World) (now : Int)
    (hl : w.localFails = false) (hr : w.rulesFail = false) :
    ((handleMessage Message.resetTimer now).run w).value = some (some Response.success)
      ∧ (after (handleMessage Message.resetTimer now) w).timerState = initialTimerState
      ∧ phase (after (handleMessage Message.resetTimer now) w).timerState = Phase.Focus
      ∧ activity (after (handleMessage Message.resetTimer now) w).timerState = Activity.Idle
      ∧ (after (handleMessage Message.resetTimer now) w).timerState.isRunning = false
      ∧ (after (handleMessage Message.resetTimer now) w).timerState.isPaused = false
      ∧ (after (handleMessage Message.resetTimer now) w).timerState.endTime = none
      ∧ (after (handleMessage Message.resetTimer now) w).dynamicRules = [] := by
  simp [handleMessage, resetTimer, updateBlockingRules_false_run, saveTimerState_run, hl, hr,
    after, Result.world, Result.value, phase, activity, initialTimerState]

/-- Witness of C4: resetting the paused session of the example, which has 18
rules installed, gives the initial timer state and an empty rule table. -/
theorem reset_yields_idle_focus_no_rules_witness :
    pausedSession.localFails = false ∧ pausedSession.rulesFail = false
      ∧ pausedSession.dynamicRules.length = 18
      ∧ (after (handleMessage Message.resetTimer 20000) pausedSession).timerState
          = initialTimerState
      ∧ (after (handleMessage Message.resetTimer 20000) pausedSession).dynamicRules = [] :=
  ⟨by decide, by decide, by decide,
    (reset_yields_idle_focus_no_rules pausedSession 20000 (by decide) (by decide)).2.1,
    (reset_yields_idle_focus_no_rules pausedSession 20000 (by decide) (by decide)).2.2.2.2.2.2.2⟩

/-- Skip in a running state: the skip command reports success; during Focus it
moves to Break, leaves no rule installed and, when the stored
`sessionsCompleted` is a number, increases it by exactly one; during Break it
leaves the settings record, hence `sessionsCompleted`, unchanged, moves to
Focus and leaves installed exactly the rules built from the configured blocked
sites. -/
theorem skip_switches_phase (w : World) (now : Int)
    (hRun : w.timerState.isRunning = true)
    (hl : w.localFails = false) (hr : w.rulesFail = false) :
    ((handleMessage Message.skipSession now).run w).value = some (some Response.success)
      ∧ (phase w.timerState = Phase.Focus →
          (∀ n : Int, (currentSettings w).sessionsCompleted = JsNum.num n →
            (currentSettings (after (handleMessage Message.skipSession now) w)).sessionsCompleted
              = JsNum.num (n + 1))
          ∧ phase (after (handleMessage Message.skipSession now) w).timerState = Phase.Break
          ∧ (after (handleMessage Message.skipSession now) w).dynamicRules = [])
      ∧ (phase w.timerState = Phase.Break →
          currentSettings (after (handleMessage Message.skipSession now) w) = currentSettings w
          ∧ phase (after (handleMessage Message.skipSession now) w).timerState = Phase.Focus
          ∧ (after (handleMessage Message.skipSession now) w).dynamicRules
              = newRules (currentSettings w).blockedSites) := by
  cases hs : w.timerState.isStudySession <;>
  simp [handleMessage, skipSession, handleSessionEnd, updateBlockingRules_true_run,
    updateBlockingRules_false_run, hl, hr, hRun, hs, startTimerInterval_run, truthy,
    after, Result.world, Result.value, phase, currentSettings, JsNum.incr]
  intro n hn
  simp [hn, JsNum.incr]

/-- Instance of `skip_switches_phase`: skipping the Focus session of the
example, with no session completed so far, stores one completed session, moves
to Break and leaves no rule installed. -/
theorem skip_switches_phase_witness :
    startedSession.timerState.isRunning = true
      ∧ startedSession.localFails = false ∧ startedSession.rulesFail = false
      ∧ phase startedSession.timerState = Phase.Focus
      ∧ (currentSettings startedSession).sessionsCompleted = JsNum.num 0
      ∧ (currentSettings (after (handleMessage Message.skipSession 20000)
            startedSession)).sessionsCompleted = JsNum.num 1
      ∧ phase (after (handleMessage Message.skipSession 20000) startedSession).timerState
          = Phase.Break
      ∧ (after (handleMessage Message.skipSession 20000) startedSession).dynamicRules = [] :=
  ⟨by decide, by decide, by decide, by decide, by decide,
    ((skip_switches_phase startedSession 20000 (by decide) (by decide) (by decide)).2.1
      (by decide)).1 0 (by decide),
    ((skip_switches_phase startedSession 20000 (by decide) (by decide) (by decide)).2.1
      (by decide)).2.1,
    ((skip_switches_phase startedSession 20000 (by decide) (by decide) (by decide)).2.1
      (by decide)).2.2⟩

/-- Expiry in a Running Focus state: for every clock value `now` at or past
`endTime`, one tick of the driver performs the transition: the phase is Break,
the activity Running, `totalTime = breakTime * 60`,
`endTime = nowEnd + totalTime * 1000` where `nowEnd` is the clock read by the
transition (equal to `now` when the tick takes no time), no rule is installed
and, when the stored `sessionsCompleted` is a number, it is one greater than
before. -/
theorem tick_at_expiry_moves_to_break (w : World) (now nowEnd : Int)
    (hRun : activity w.timerState = Activity.Running)
    (hFocus : phase w.timerState = Phase.Focus)
    (hExpired : toNumber w.timerState.endTime ≤ now)
    (hl : w.localFails = false) (hr : w.rulesFail = false) :
    phase (after (timerTick now nowEnd) w).timerState = Phase.Break
      ∧ activity (after (timerTick now nowEnd) w).timerState = Activity.Running
      ∧ (after (timerTick now nowEnd) w).timerState.totalTime = (currentSettings w).breakTime * 60
      ∧ (after (timerTick now nowEnd) w).timerState.endTime
          = some (nowEnd + (after (timerTick now nowEnd) w).timerState.totalTime * 1000)
      ∧ (after (timerTick now nowEnd) w).dynamicRules = []
      ∧ (∀ n : Int, (currentSettings w).sessionsCompleted = JsNum.num n →
          (currentSettings (after (timerTick now nowEnd) w)).sessionsCompleted
            = JsNum.num (n + 1)) := by
  have hr1 : w.timerState.isRunning = true := by
    revert hRun
    cases h : w.timerState.isRunning <;> simp [activity, h]
  have hp : w.timerState.isPaused = false := by
    revert hRun
    cases h : w.timerState.isPaused <;> simp [activity, h, hr1]
  have hs : w.timerState.isStudySession = true := by
    revert hFocus
    cases h : w.timerState.isStudySession <;> simp [phase, h]
  have hdiff : (toNumber w.timerState.endTime - now) / 1000 ≤ 0 := by omega
  simp [timerTick, handleSessionEnd, updateBlockingRules_false_run, saveTimerState_run, hl, hr,
    hr1, hp, hs, hdiff, startTimerInterval_run, truthy, after, Result.world, phase, activity,
    currentSettings]
  intro n hn
  simp [hn, JsNum.incr]

/-- Instance of `tick_at_expiry_moves_to_break`, the scenario of the
specification: with the default 25 and 5 minutes and start at clock value 0,
the tick at 1500 s moves to Break with `totalTime` 300, Running, with no rule
installed. -/
theorem tick_at_expiry_moves_to_break_witness :
    activity (after (handleMessage Message.startTimer 0) initialWorld).timerState
        = Activity.Running
      ∧ phase (after (handleMessage Message.startTimer 0) initialWorld).timerState = Phase.Focus
      ∧ toNumber (after (handleMessage Message.startTimer 0) initialWorld).timerState.endTime
          ≤ 1500000
      ∧ phase (after (timerTick 1500000 1500000)
          (after (handleMessage Message.startTimer 0) initialWorld)).timerState = Phase.Break
      ∧ (after (timerTick 1500000 1500000)
          (after (handleMessage Message.startTimer 0) initialWorld)).timerState.totalTime = 5 * 60
      ∧ (after (timerTick 1500000 1500000)
          (after (handleMessage Message.startTimer 0) initialWorld)).dynamicRules = [] :=
  ⟨by decide, by decide, by decide,
    (tick_at_expiry_moves_to_break (after (handleMessage Message.startTimer 0) initialWorld)
      1500000 1500000 (by decide) (by decide) (by decide) (by decide) (by decide)).1,
    (tick_at_expiry_moves_to_break (after (handleMessage Message.startTimer 0) initialWorld)
      1500000 1500000 (by decide) (by decide) (by decide) (by decide) (by decide)).2.2.1,
    (tick_at_expiry_moves_to_break (after (handleMessage Message.startTimer 0) initialWorld)
      1500000 1500000 (by decide) (by decide) (by decide) (by decide) (by decide)).2.2.2.2.1⟩

/-! ## Failing facilities -/

theorem saveTimerState_fail_run (w : World) (h : w.localFails = true) :
    saveTimerState.run w = Result.threw w := by
  simp only [saveTimerState, run_bind, getTimerState_run, storageLocalSet_run, h]
  rfl

theorem updateBlockingRules_fail_run (enable : Bool) (w : World) (h : w.rulesFail = true) :
    (updateBlockingRules enable).run w = Result.threw w := by
  have hg : getDynamicRules.run w = Result.threw w := by
    simp [getDynamicRules, Js.run, h]
  simp only [updateBlockingRules, run_bind, getSettings_run, hg]

/-! ## Query and settings -/

/-- C7, as stated, fails: in the session of the example (25 minutes, start at
clock value 0, last tick at 10 s) the state is Running with `endTime`
1500000 ms, and the query at 12 s answers the stored `timeRemaining = 1490`,
whereas max(0, (1500000 - 12000) / 1000) is 1488. Likewise the query made right
after `start()`, before the first tick, answers the `timeRemaining = 0` of the
initial state. -/
theorem getState_not_recomputed :
    activity startedSession.timerState = Activity.Running
      ∧ ((handleMessage Message.getState 12000).run startedSession).value
          = some (some (Response.state
              { isRunning := true
                isPaused := false
                isStudySession := true
                endTime := some 1500000
                timeRemaining := 1490
                totalTime := 1500
                intervalId := some 1 }
              DEFAULT_SETTINGS))
      ∧ max 0 ((1500000 - 12000) / 1000) = (1488 : Int)
      ∧ (1490 : Int) ≠ 1488
      ∧ ((handleMessage Message.getState 500).run
            (after (handleMessage Message.startTimer 0) initialWorld)).value
          = some (some (Response.state
              { isRunning := true
                isPaused := false
                isStudySession := true
                endTime := some 1500000
                timeRemaining := 0
                totalTime := 1500
                intervalId := some 1 }
              DEFAULT_SETTINGS)) := by
  decide

/-- C7, amended. For every state and clock value the query answers with the
in-memory timer state and the current settings as they are, and changes
nothing: `timeRemaining` is not recomputed by the query. It is the value stored
by the last tick of the driver, which in a Running state at clock value
`tickNow` stores max(0, floor((endTime - tickNow) / 1000)). -/
theorem getState_returns_stored_state (w : World) (now tickNow nowEnd : Int) :
    (handleMessage Message.getState now).run w
        = Result.ok (some (Response.state w.timerState (currentSettings w))) w
      ∧ (activity w.timerState = Activity.Running →
          (after (timerTick tickNow nowEnd) w).timerState.timeRemaining
            = max 0 ((toNumber w.timerState.endTime - tickNow) / 1000)) := by
  refine ⟨by simp [handleMessage], ?_⟩
  intro hRun
  have hr1 : w.timerState.isRunning = true := by
    revert hRun
    cases h : w.timerState.isRunning <;> simp [activity, h]
  have hp : w.timerState.isPaused = false := by
    revert hRun
    cases h : w.timerState.isPaused <;> simp [activity, h, hr1]
  rw [max_comm]
  by_cases hd : (toNumber w.timerState.endTime - tickNow) / 1000 ≤ 0 <;>
  cases hs : w.timerState.isStudySession <;>
  cases hl : w.localFails <;>
  cases hr : w.rulesFail <;>
  simp [timerTick, handleSessionEnd, updateBlockingRules_true_run, updateBlockingRules_false_run,
    saveTimerState_run, saveTimerState_fail_run, updateBlockingRules_fail_run, hl, hr,
    hr1, hp, hs, hd, startTimerInterval_run, truthy, after, Result.world, currentSettings]

/-- Witness of C7 amended, the scenario of the specification: with 25 minutes,
start at 0, the tick at 10 s and the query at 10 s, the answer has
`timeRemaining = 1490`, phase Focus and activity Running. -/
theorem getState_returns_stored_state_witness :
    activity (after (handleMessage Message.startTimer 0) initialWorld).timerState
        = Activity.Running
      ∧ (handleMessage Message.getState 10000).run startedSession
          = Result.ok (some (Response.state startedSession.timerState
              (currentSettings startedSession))) startedSession
      ∧ startedSession.timerState.timeRemaining = 1490
      ∧ phase startedSession.timerState = Phase.Focus
      ∧ activity startedSession.timerState = Activity.Running :=
  ⟨by decide,
    (getState_returns_stored_state startedSession 10000 10000 10000).1,
    (getState_returns_stored_state (after (handleMessage Message.startTimer 0) initialWorld)
      10000 10000 10000).2 (by decide),
    by decide, by decide⟩

/-- C8, as stated, fails: the session of the example is Running in Focus with
the rules of the nine default sites installed; after `updateSettings` with the
single site example.com has reported success, the table still holds the rules
of the default sites, not the two rules of example.com. -/
theorem updateSettings_does_not_resync :
    activity startedSession.timerState = Activity.Running
      ∧ phase startedSession.timerState = Phase.Focus
      ∧ ((handleMessage (Message.updateSettings exampleSettings) 20000).run
            startedSession).value = some (some Response.success)
      ∧ (after (handleMessage (Message.updateSettings exampleSettings) 20000)
            startedSession).dynamicRules = newRules DEFAULT_SETTINGS.blockedSites
      ∧ (after (handleMessage (Message.updateSettings exampleSettings) 20000)
            startedSession).dynamicRules ≠ newRules exampleSettings.blockedSites := by
  decide

/-- C8, amended. For every state, in particular Running in Focus, and every new
settings record, `updateSettings` reports success having replaced the stored
settings record and nothing else: the installed rule table and the timer state
are as before the command. The table becomes the rule set of the new
`blockedSites` at the next enabling synchronization, the one made by `start()`
and by a transition into Focus. -/
theorem updateSettings_keeps_rule_table (w : World) (settings : Settings) (now : Int) :
    (handleMessage (Message.updateSettings settings) now).run w
        = Result.ok (some Response.success) { w with syncSettings := some settings }
      ∧ (after (handleMessage (Message.updateSettings settings) now) w).dynamicRules
          = w.dynamicRules
      ∧ (after (handleMessage (Message.updateSettings settings) now) w).timerState
          = w.timerState
      ∧ (w.rulesFail = false →
          (after (updateBlockingRules true)
              (after (handleMessage (Message.updateSettings settings) now) w)).dynamicRules
            = newRules settings.blockedSites) := by
  refine ⟨by simp [handleMessage], by simp [handleMessage, after, Result.world],
    by simp [handleMessage, after, Result.world], ?_⟩
  intro hr
  simp [handleMessage, after, Result.world, updateBlockingRules_true_run, hr, currentSettings]

/-- Witness of C8 amended: in the session of the example the table is unchanged
by `updateSettings`, and the next enabling synchronization installs the two
rules of example.com. -/
theorem updateSettings_keeps_rule_table_witness :
    startedSession.rulesFail = false
      ∧ (after (handleMessage (Message.updateSettings exampleSettings) 20000)
            startedSession).dynamicRules = startedSession.dynamicRules
      ∧ (after (updateBlockingRules true)
            (after (handleMessage (Message.updateSettings exampleSettings) 20000)
              startedSession)).dynamicRules = newRules ["example.com"] :=
  ⟨by decide,
    (updateSettings_keeps_rule_table startedSession exampleSettings 20000).2.1,
    (updateSettings_keeps_rule_table startedSession exampleSettings 20000).2.2.2 (by decide)⟩

/-- C9, evaluated on the code: with three completed sessions stored, saving the
settings form sends a record without `sessionsCompleted`; `updateSettings`
stores it as the whole settings record, so the stored counter is `undefined`
afterwards, not an integer at least 3, and the next completed focus session
(start, then skip) stores `NaN`. -/
theorem updateSettings_drops_sessionsCompleted :
    (currentSettings threeSessionsWorld).sessionsCompleted = JsNum.num 3
      ∧ formSettings
          = some { studyTime := 25
                   breakTime := 5
                   blockedSites := DEFAULT_SETTINGS.blockedSites
                   soundEnabled := true
                   sessionsCompleted := JsNum.undefined }
      ∧ formSettings.map (fun s =>
            (currentSettings (after (handleMessage (Message.updateSettings s) 0)
              threeSessionsWorld)).sessionsCompleted) = some JsNum.undefined
      ∧ formSettings.map (fun s =>
            (currentSettings
              (after (handleMessage Message.skipSession 2000)
                (after (handleMessage Message.startTimer 1000)
                  (after (handleMessage (Message.updateSettings s) 0)
                    threeSessionsWorld)))).sessionsCompleted) = some JsNum.nan := by
  decide

/-! ## Synchronization of the rule table -/

theorem newRulesFrom_length (sites : List String) (k : Nat) :
    (newRulesFrom k sites).length = 2 * sites.length := by
  induction sites generalizing k with
  | nil => rfl
  | cons site rest ih =>
    simp only [newRulesFrom, List.length_append, ih, siteRules, List.length_cons, List.length_nil]
    omega

theorem mem_newRulesFrom (sites : List String) (k : Nat) (r : Rule) :
    r ∈ newRulesFrom k sites ↔ ∃ j h, sites[j]? = some h ∧ r ∈ siteRules h (k + j) := by
  induction sites generalizing k with
  | nil => simp [newRulesFrom]
  | cons site rest ih =>
    rw [newRulesFrom, List.mem_append, ih]
    constructor
    · rintro (h0 | ⟨j, h, hj, hr⟩)
      · exact ⟨0, site, by simp, h0⟩
      · refine ⟨j + 1, h, by simpa using hj, ?_⟩
        have e : k + (j + 1) = k + 1 + j := by omega
        rw [e]
        exact hr
    · rintro ⟨j, h, hj, hr⟩
      cases j with
      | zero =>
        left
        have e : site = h := by simpa using hj
        rw [e]
        exact hr
      | succ j =>
        right
        refine ⟨j, h, by simpa using hj, ?_⟩
        have e : k + 1 + j = k + (j + 1) := by omega
        rw [e]
        exact hr

/-- C10. Synchronization with `enable = true`: for every list of blocked sites
of length `n` and every previously installed table the call completes and the
installed table has exactly `2 * n` rules; a rule is installed exactly when it
is, for the site `h` at some index `i`, the rule with `urlFilter` `*://h/*` or
the rule with `urlFilter` `*://*.h/*`, both of resource type `main_frame`
only, both redirecting to the extension path `/blocked.html`; the previous
table has no influence on the outcome, so no rule of it remains. -/
theorem sync_enable_installs_two_rules_per_site (w : World) (hr : w.rulesFail = false) :
    (updateBlockingRules true).run w
        = Result.ok () { w with dynamicRules := newRules (currentSettings w).blockedSites }
      ∧ (after (updateBlockingRules true) w).dynamicRules.length
          = 2 * (currentSettings w).blockedSites.length
      ∧ (∀ r : Rule, r ∈ (after (updateBlockingRules true) w).dynamicRules ↔
          ∃ i h, (currentSettings w).blockedSites[i]? = some h ∧
            (r = { id := i * 2 + 1
                   priority := 1
                   actionType := "redirect"
                   extensionPath := "/blocked.html"
                   urlFilter := "*://" ++ h ++ "/*"
                   resourceTypes := ["main_frame"] }
              ∨ r = { id := i * 2 + 2
                      priority := 1
                      actionType := "redirect"
                      extensionPath := "/blocked.html"
                      urlFilter := "*://*." ++ h ++ "/*"
                      resourceTypes := ["main_frame"] }))
      ∧ (∀ previous : List Rule,
          (after (updateBlockingRules true) { w with dynamicRules := previous }).dynamicRules
            = (after (updateBlockingRules true) w).dynamicRules) := by
  have hrun := updateBlockingRules_true_run w hr
  refine ⟨hrun, ?_, ?_, ?_⟩
  · simp [after, hrun, Result.world, newRules, newRulesFrom_length]
  · intro r
    simp [after, hrun, Result.world, newRules, mem_newRulesFrom, siteRules]
  · intro previous
    have hprev := updateBlockingRules_true_run { w with dynamicRules := previous } hr
    simp [after, hrun, hprev, Result.world, currentSettings]

/-- Witness of C10: with the single site example.com and the 18 rules of the
default sites installed before, synchronization leaves exactly the two rules
of example.com. -/
theorem sync_enable_installs_two_rules_per_site_witness :
    (after (handleMessage (Message.updateSettings exampleSettings) 20000)
        startedSession).rulesFail = false
      ∧ (after (handleMessage (Message.updateSettings exampleSettings) 20000)
          startedSession).dynamicRules.length = 18
      ∧ (after (updateBlockingRules true)
          (after (handleMessage (Message.updateSettings exampleSettings) 20000)
            startedSession)).dynamicRules.length = 2 * 1 :=
  ⟨by decide, by decide,
    (sync_enable_installs_two_rules_per_site
      (after (handleMessage (Message.updateSettings exampleSettings) 20000) startedSession)
      (by decide)).2.1⟩

/-! ## Rule identifiers -/

theorem siteRules_eq (h : String) (i : Nat) :
    siteRules h i = [hostRule h i, subdomainRule h i] := rfl

theorem getElem?_newRulesFrom_even (sites : List String) (k i : Nat) :
    (newRulesFrom k sites)[2 * i]? = sites[i]?.map (fun h => hostRule h (k + i)) := by
  induction sites generalizing k i with
  | nil => simp [newRulesFrom]
  | cons site rest ih =>
    cases i with
    | zero => simp [newRulesFrom, siteRules_eq]
    | succ i =>
      have e : 2 * (i + 1) = 2 * i + 1 + 1 := by omega
      have e2 : k + 1 + i = k + (i + 1) := by omega
      simp only [newRulesFrom, siteRules_eq, e, List.cons_append, List.nil_append,
        List.getElem?_cons_succ, ih, e2]

theorem getElem?_newRulesFrom_odd (sites : List String) (k i : Nat) :
    (newRulesFrom k sites)[2 * i + 1]? = sites[i]?.map (fun h => subdomainRule h (k + i)) := by
  induction sites generalizing k i with
  | nil => simp [newRulesFrom]
  | cons site rest ih =>
    cases i with
    | zero => simp [newRulesFrom, siteRules_eq]
    | succ i =>
      have e : 2 * (i + 1) + 1 = 2 * i + 1 + 1 + 1 := by omega
      have e2 : k + 1 + i = k + (i + 1) := by omega
      simp only [newRulesFrom, siteRules_eq, e, List.cons_append, List.nil_append,
        List.getElem?_cons_succ, ih, e2]

/-- C11. Rule identifiers: for every site list of length `n`, the two rules
built for the site at position `i` stand at positions `2 * i` and `2 * i + 1`
of the generated array and have the ids `2 * i + 1` and `2 * i + 2`; the ids
of the array are pairwise distinct, they are exactly `1, .., 2 * n` in this
order, and they are the same for every other list of the same length, so they
depend on the position only. After an enabling synchronization these are the
ids of the installed table. -/
theorem rule_ids_by_position (sites : List String) :
    (∀ (i : Nat) (h : String), sites[i]? = some h →
        (newRules sites)[2 * i]? = some (hostRule h i)
          ∧ (newRules sites)[2 * i + 1]? = some (subdomainRule h i)
          ∧ (hostRule h i).id = 2 * i + 1
          ∧ (subdomainRule h i).id = 2 * i + 2)
      ∧ ((newRules sites).map (fun r => r.id)).Nodup
      ∧ (newRules sites).map (fun r => r.id) = List.range' 1 (2 * sites.length)
      ∧ (∀ other : List String, other.length = sites.length →
          (newRules other).map (fun r => r.id) = (newRules sites).map (fun r => r.id))
      ∧ (∀ w : World, w.rulesFail = false → (currentSettings w).blockedSites = sites →
          (after (updateBlockingRules true) w).dynamicRules.map (fun r => r.id)
            = List.range' 1 (2 * sites.length)) := by
  have hids : (newRules sites).map (fun r => r.id) = List.range' 1 (2 * sites.length) := by
    rw [newRules, newRulesFrom_ids]
  refine ⟨?_, newRules_ids_nodup sites, hids, ?_, ?_⟩
  · intro i h hi
    refine ⟨?_, ?_, ?_, ?_⟩
    · rw [newRules, getElem?_newRulesFrom_even, hi]
      simp
    · rw [newRules, getElem?_newRulesFrom_odd, hi]
      simp
    · simp [hostRule]
      omega
    · simp [subdomainRule]
      omega
  · intro other hlen
    rw [hids, newRules, newRulesFrom_ids, hlen]
  · intro w hr hsites
    rw [after, updateBlockingRules_true_run w hr, hsites]
    exact hids

/-- Witness of C11: for the two sites a.com and b.com the rules of b.com, at
position 1, stand at positions 2 and 3 with ids 3 and 4, and the installed
table of the session of the example has the ids 1 to 18. -/
theorem rule_ids_by_position_witness :
    ["a.com", "b.com"][1]? = some "b.com"
      ∧ (newRules ["a.com", "b.com"])[2 * 1]? = some (hostRule "b.com" 1)
      ∧ (hostRule "b.com" 1).id = 3
      ∧ (subdomainRule "b.com" 1).id = 4
      ∧ (newRules ["a.com", "b.com"]).map (fun r => r.id) = [1, 2, 3, 4]
      ∧ (after (updateBlockingRules true) startedSession).dynamicRules.map (fun r => r.id)
          = List.range' 1 (2 * DEFAULT_SETTINGS.blockedSites.length) :=
  ⟨by decide,
    ((rule_ids_by_position ["a.com", "b.com"]).1 1 "b.com" (by decide)).1,
    ((rule_ids_by_position ["a.com", "b.com"]).1 1 "b.com" (by decide)).2.2.1,
    ((rule_ids_by_position ["a.com", "b.com"]).1 1 "b.com" (by decide)).2.2.2,
    (rule_ids_by_position ["a.com", "b.com"]).2.2.1,
    (rule_ids_by_position DEFAULT_SETTINGS.blockedSites).2.2.2.2 startedSession
      (by decide) (by decide)⟩

/-- C12. Idempotence of synchronization: for every rule table and every site
list, a second enabling synchronization with the same settings leaves the world
of the first one, in particular the same table with the same ids and no
duplicate; a disabling synchronization leaves no rule, whatever was installed. -/
theorem sync_is_idempotent (w : World) (hr : w.rulesFail = false) :
    (updateBlockingRules true).run (after (updateBlockingRules true) w)
        = Result.ok () (after (updateBlockingRules true) w)
      ∧ (after (updateBlockingRules true) (after (updateBlockingRules true) w)).dynamicRules
          = (after (updateBlockingRules true) w).dynamicRules
      ∧ (after (updateBlockingRules true) w).dynamicRules.Nodup
      ∧ ((after (updateBlockingRules true) w).dynamicRules.map (fun r => r.id)).Nodup
      ∧ (updateBlockingRules false).run w = Result.ok () { w with dynamicRules := [] }
      ∧ (after (updateBlockingRules false) w).dynamicRules.length = 0 := by
  have h1 := updateBlockingRules_true_run w hr
  have h2 := updateBlockingRules_true_run
    { w with dynamicRules := newRules (currentSettings w).blockedSites } hr
  have h0 := updateBlockingRules_false_run w hr
  have hnodup := newRules_ids_nodup (currentSettings w).blockedSites
  refine ⟨?_, ?_, ?_, ?_, h0, ?_⟩
  · simp only [after, h1, Result.world]
    rw [h2]
    rfl
  · simp only [after, h1, Result.world]
    rw [h2]
    rfl
  · simp only [after, h1, Result.world]
    exact List.Nodup.of_map _ hnodup
  · simp only [after, h1, Result.world]
    exact hnodup
  · simp [after, h0, Result.world]

/-- Witness of C12, the scenario of the specification: with the single blocked
site example.com, one and two enabling synchronizations both leave exactly the
two rules with ids 1 and 2, and a disabling one leaves none. -/
theorem sync_is_idempotent_witness :
    (after (handleMessage (Message.updateSettings exampleSettings) 0) initialWorld).rulesFail
        = false
      ∧ (after (updateBlockingRules true)
          (after (handleMessage (Message.updateSettings exampleSettings) 0)
            initialWorld)).dynamicRules = [hostRule "example.com" 0, subdomainRule "example.com" 0]
      ∧ (after (updateBlockingRules true) (after (updateBlockingRules true)
          (after (handleMessage (Message.updateSettings exampleSettings) 0)
            initialWorld))).dynamicRules
          = (after (updateBlockingRules true)
              (after (handleMessage (Message.updateSettings exampleSettings) 0)
                initialWorld)).dynamicRules
      ∧ (after (updateBlockingRules false) (after (updateBlockingRules true)
          (after (handleMessage (Message.updateSettings exampleSettings) 0)
            initialWorld))).dynamicRules.length = 0 :=
  ⟨by decide, by decide,
    (sync_is_idempotent
      (after (handleMessage (Message.updateSettings exampleSettings) 0) initialWorld)
      (by decide)).2.1,
    (sync_is_idempotent
      (after (updateBlockingRules true)
        (after (handleMessage (Message.updateSettings exampleSettings) 0) initialWorld))
      (by decide)).2.2.2.2.2⟩

/-! ## Persistence and recovery -/

/-- C13, evaluated on the code: when the install listener runs while the
in-memory timer state holds the handle 1 (a session started at clock value 0),
the record it writes under `timerState` is the in-memory state as it is, with
`intervalId` 1, not `null`; `saveTimerState` in the same world writes the
record with `intervalId` `null` and the other fields equal. -/
theorem onInstalled_persists_interval_handle :
    (after (handleMessage Message.startTimer 0) initialWorld).timerState.intervalId = some 1
      ∧ (after onInstalled (after (handleMessage Message.startTimer 0) initialWorld)).localTimerState
          = some (after (handleMessage Message.startTimer 0) initialWorld).timerState
      ∧ (after onInstalled
            (after (handleMessage Message.startTimer 0) initialWorld)).localTimerState.map
              (fun t => t.intervalId) = some (some 1)
      ∧ (after saveTimerState
            (after (handleMessage Message.startTimer 0) initialWorld)).localTimerState
          = some { (after (handleMessage Message.startTimer 0) initialWorld).timerState with
                     intervalId := none } := by
  decide

/-- C14, evaluated on the code: skipping the Focus session of the example at
20 s reports success and leaves the in-memory state in Break with `endTime`
320000 ms, while the persisted record is still the one written by the tick at
10 s, in Focus with `endTime` 1500000 ms: `skipSession` never calls
`saveTimerState`. The tick callback, after the same transition, does write the
in-memory state through. -/
theorem skip_does_not_persist :
    ((handleMessage Message.skipSession 20000).run startedSession).value
        = some (some Response.success)
      ∧ phase (after (handleMessage Message.skipSession 20000) startedSession).timerState
          = Phase.Break
      ∧ (after (handleMessage Message.skipSession 20000) startedSession).timerState.endTime
          = some 320000
      ∧ (after (handleMessage Message.skipSession 20000) startedSession).localTimerState
          = startedSession.localTimerState
      ∧ (after (handleMessage Message.skipSession 20000) startedSession).localTimerState.map
            (fun t => (phase t, t.endTime)) = some (Phase.Focus, some 1500000)
      ∧ (after (handleMessage Message.skipSession 20000) startedSession).localTimerState
          ≠ some { (after (handleMessage Message.skipSession 20000) startedSession).timerState
                     with intervalId := none }
      ∧ (after (timerTick 1500000 1500000) startedSession).localTimerState
          = some { (after (timerTick 1500000 1500000) startedSession).timerState
                     with intervalId := none } := by
  decide

/-- Recovery of a record without a handle: the startup listener reads no clock.
For every persisted record that is running and carries no handle (as every
record written by `saveTimerState`), it makes the in-memory state that record,
with `endTime` and `totalTime` exactly as persisted, and starts one driver
whose handle it stores; for a persisted record that is not running, and when
no record is persisted, it changes nothing, so the freshly loaded worker stays
in the initial Idle state with no driver. -/
theorem startup_restores_running_record (w : World) (t : TimerState) :
    (w.localTimerState = some t → t.isRunning = true → truthy t.intervalId = false →
        onStartup.run w
            = Result.ok ()
                { w with timerState := { t with intervalId := some w.nextIntervalId }
                         activeIntervals := w.nextIntervalId :: w.activeIntervals
                         nextIntervalId := w.nextIntervalId + 1 }
          ∧ (after onStartup w).timerState.endTime = t.endTime
          ∧ (after onStartup w).timerState.totalTime = t.totalTime
          ∧ (after onStartup w).timerState.timeRemaining = t.timeRemaining
          ∧ phase (after onStartup w).timerState = phase t
          ∧ activity (after onStartup w).timerState = activity t
          ∧ (Step.apply Step.recovery w).activeIntervals = [1]
          ∧ (Step.apply Step.recovery w).timerState = { t with intervalId := some 1 })
      ∧ (w.localTimerState = some t → t.isRunning = false →
          onStartup.run w = Result.ok () w
            ∧ Step.apply Step.recovery w = workerLoaded w)
      ∧ (w.localTimerState = none →
          onStartup.run w = Result.ok () w
            ∧ Step.apply Step.recovery w = workerLoaded w)
      ∧ (workerLoaded w).timerState = initialTimerState
      ∧ activity (workerLoaded w).timerState = Activity.Idle
      ∧ (workerLoaded w).activeIntervals = [] := by
  refine ⟨?_, ?_, ?_, rfl, rfl, rfl⟩
  · intro hrec hrun hid
    simp [onStartup, hrec, hrun, hid, startTimerInterval_run, after, Result.world, phase,
      activity, Step.apply, workerLoaded]
  · intro hrec hrun
    simp [onStartup, hrec, hrun, after, Result.world, Step.apply, workerLoaded]
  · intro hrec
    simp [onStartup, hrec, after, Result.world, Step.apply, workerLoaded]

/-- Instance of `startup_restores_running_record`: the persisted record of the
session of the example is Running in Focus with `endTime` 1500000 ms and no
handle; after a restart the in-memory state has this `endTime` and one driver
is live. -/
theorem startup_restores_running_record_witness :
    startedSession.localTimerState
        = some { isRunning := true
                 isPaused := false
                 isStudySession := true
                 endTime := some 1500000
                 timeRemaining := 1490
                 totalTime := 1500
                 intervalId := none }
      ∧ recoveredSession.timerState.endTime = some 1500000
      ∧ recoveredSession.activeIntervals = [1]
      ∧ Step.apply Step.recovery initialWorld = workerLoaded initialWorld :=
  ⟨by decide,
    congrArg TimerState.endTime
      ((startup_restores_running_record startedSession
        { isRunning := true
          isPaused := false
          isStudySession := true
          endTime := some 1500000
          timeRemaining := 1490
          totalTime := 1500
          intervalId := none }).1 (by decide) (by decide) (by decide)).2.2.2.2.2.2.2,
    ((startup_restores_running_record startedSession
        { isRunning := true
          isPaused := false
          isStudySession := true
          endTime := some 1500000
          timeRemaining := 1490
          totalTime := 1500
          intervalId := none }).1 (by decide) (by decide) (by decide)).2.2.2.2.2.2.1,
    ((startup_restores_running_record initialWorld initialTimerState).2.2.1 (by decide)).2⟩

/-- C17. Liveness check: for every state the alarm listener completes, and its
only effect is that, when the state is running and holds no handle, a driver is
created and its handle stored; the phase, the activity, `endTime`,
`timeRemaining`, `totalTime`, the settings record, the persisted record, the
rule table and the broadcast messages, hence the number of transitions, are
as before. -/
theorem alarm_only_installs_driver (w : World) :
    onAlarm.run w
        = Result.ok ()
            (if w.timerState.isRunning && !truthy w.timerState.intervalId then
              { w with timerState := { w.timerState with intervalId := some w.nextIntervalId }
                       activeIntervals := w.nextIntervalId :: w.activeIntervals
                       nextIntervalId := w.nextIntervalId + 1 }
            else w)
      ∧ phase (after onAlarm w).timerState = phase w.timerState
      ∧ activity (after onAlarm w).timerState = activity w.timerState
      ∧ (after onAlarm w).timerState.endTime = w.timerState.endTime
      ∧ (after onAlarm w).timerState.timeRemaining = w.timerState.timeRemaining
      ∧ (after onAlarm w).timerState.totalTime = w.timerState.totalTime
      ∧ (after onAlarm w).syncSettings = w.syncSettings
      ∧ (after onAlarm w).localTimerState = w.localTimerState
      ∧ (after onAlarm w).dynamicRules = w.dynamicRules
      ∧ (after onAlarm w).sent = w.sent
      ∧ transitions (after onAlarm w) = transitions w := by
  cases hrun : w.timerState.isRunning <;>
  cases hid : truthy w.timerState.intervalId <;>
  simp [onAlarm, hrun, hid, startTimerInterval_run, after, Result.world, phase, activity,
    transitions]

/-! ## Commands outside their valid state -/

theorem isRunning_of_running {t : TimerState} (h : activity t = Activity.Running) :
    t.isRunning = true ∧ t.isPaused = false := by
  revert h
  cases h1 : t.isRunning <;> cases h2 : t.isPaused <;> simp [activity, h1, h2]

theorem isRunning_of_paused {t : TimerState} (h : activity t = Activity.Paused) :
    t.isRunning = true ∧ t.isPaused = true := by
  revert h
  cases h1 : t.isRunning <;> cases h2 : t.isPaused <;> simp [activity, h1, h2]

theorem isRunning_of_idle {t : TimerState} (h : activity t = Activity.Idle) :
    t.isRunning = false := by
  revert h
  cases h1 : t.isRunning <;> cases h2 : t.isPaused <;> simp [activity, h1, h2]

/-- C18, as stated, fails: the session of the example is Running in Focus with
`endTime` 1500000 ms, and the start command at 20 s reports success and moves
`endTime` to 1520000 ms; the same session skipped into Break (no rule
installed, `totalTime` 300) is put back into Focus by the start command at
30 s, with `totalTime` 1500 and the 18 rules of the default sites. -/
theorem start_while_running_is_not_noop :
    activity startedSession.timerState = Activity.Running
      ∧ startedSession.timerState.endTime = some 1500000
      ∧ ((handleMessage Message.startTimer 20000).run startedSession).value
          = some (some Response.success)
      ∧ (after (handleMessage Message.startTimer 20000) startedSession).timerState.endTime
          = some 1520000
      ∧ activity (after (handleMessage Message.skipSession 20000) startedSession).timerState
          = Activity.Running
      ∧ phase (after (handleMessage Message.skipSession 20000) startedSession).timerState
          = Phase.Break
      ∧ (after (handleMessage Message.skipSession 20000) startedSession).timerState.totalTime
          = 300
      ∧ (after (handleMessage Message.skipSession 20000) startedSession).dynamicRules = []
      ∧ phase (after (handleMessage Message.startTimer 30000)
          (after (handleMessage Message.skipSession 20000) startedSession)).timerState
          = Phase.Focus
      ∧ (after (handleMessage Message.startTimer 30000)
          (after (handleMessage Message.skipSession 20000) startedSession)).timerState.totalTime
          = 1500
      ∧ (after (handleMessage Message.startTimer 30000)
          (after (handleMessage Message.skipSession 20000) startedSession)).dynamicRules.length
          = 18 := by
  decide

/-- C18, amended. The start command in a running session is not a no-op: for
every state with activity Running, in Focus or in Break, and every clock value
`now` it reports success and restarts the focus phase as from Idle: phase Focus,
activity Running, `totalTime = studyTime * 60`, `endTime = now + totalTime *
1000`, and the rule table is the rule set of the configured blocked sites. A
handle that is held is kept and no second driver is created. -/
theorem start_while_running_restarts_focus (w : World) (now : Int)
    (hRun : activity w.timerState = Activity.Running)
    (hl : w.localFails = false) (hr : w.rulesFail = false) :
    ((handleMessage Message.startTimer now).run w).value = some (some Response.success)
      ∧ phase (after (handleMessage Message.startTimer now) w).timerState = Phase.Focus
      ∧ activity (after (handleMessage Message.startTimer now) w).timerState
          = activity w.timerState
      ∧ (after (handleMessage Message.startTimer now) w).timerState.totalTime
          = (currentSettings w).studyTime * 60
      ∧ (after (handleMessage Message.startTimer now) w).timerState.endTime
          = some (now + (currentSettings w).studyTime * 60 * 1000)
      ∧ (after (handleMessage Message.startTimer now) w).dynamicRules
          = newRules (currentSettings w).blockedSites
      ∧ (truthy w.timerState.intervalId = true →
          (after (handleMessage Message.startTimer now) w).timerState.intervalId
              = w.timerState.intervalId
            ∧ (after (handleMessage Message.startTimer now) w).activeIntervals
              = w.activeIntervals) := by
  rw [hRun]
  by_cases ht : truthy w.timerState.intervalId = true <;>
  simp [handleMessage, startStudySession, updateBlockingRules_true_run, saveTimerState_run, hl, hr,
    startTimerInterval_run, ht, Result.world, Result.value, after, phase, activity] <;>
  rfl

/-- Witness of C18 amended: the start command at 20 s in the session of the
example, Running in Focus with the handle 1, leaves `endTime` at 1520000 ms and
the one driver. -/
theorem start_while_running_restarts_focus_witness :
    activity startedSession.timerState = Activity.Running
      ∧ startedSession.localFails = false ∧ startedSession.rulesFail = false
      ∧ (after (handleMessage Message.startTimer 20000) startedSession).timerState.endTime
          = some (20000 + 25 * 60 * 1000)
      ∧ (after (handleMessage Message.startTimer 20000) startedSession).activeIntervals = [1] :=
  ⟨by decide, by decide, by decide,
    (start_while_running_restarts_focus startedSession 20000 (by decide) (by decide)
      (by decide)).2.2.2.2.1,
    ((start_while_running_restarts_focus startedSession 20000 (by decide) (by decide)
      (by decide)).2.2.2.2.2.2 (by decide)).2⟩

/-- C19, as stated, fails for skip from Paused: skipping the paused Focus
session of the example reports success, moves to Break with `endTime`
320000 ms, stores one completed session and empties the rule table of its 18
rules; the new phase is still Paused. -/
theorem skip_from_paused_is_not_noop :
    activity pausedSession.timerState = Activity.Paused
      ∧ phase pausedSession.timerState = Phase.Focus
      ∧ pausedSession.dynamicRules.length = 18
      ∧ (currentSettings pausedSession).sessionsCompleted = JsNum.num 0
      ∧ ((handleMessage Message.skipSession 20000).run pausedSession).value
          = some (some Response.success)
      ∧ phase (after (handleMessage Message.skipSession 20000) pausedSession).timerState
          = Phase.Break
      ∧ activity (after (handleMessage Message.skipSession 20000) pausedSession).timerState
          = Activity.Paused
      ∧ (after (handleMessage Message.skipSession 20000) pausedSession).timerState.endTime
          = some 320000
      ∧ (currentSettings (after (handleMessage Message.skipSession 20000)
          pausedSession)).sessionsCompleted = JsNum.num 1
      ∧ (after (handleMessage Message.skipSession 20000) pausedSession).dynamicRules = [] := by
  decide

/-- C19, amended. Pause from Idle or Paused, resume from Idle or Running and
skip from Idle each report success and leave the phase, the activity,
`endTime`, `timeRemaining`, `totalTime`, the settings record and the rule table
unchanged. Skip from Paused is not a no-op: it performs the phase transition of
skip from Running, and the new phase is Paused. -/
theorem invalid_commands_except_skip_from_paused (w : World) (now : Int)
    (hl : w.localFails = false) (hr : w.rulesFail = false) :
    ((activity w.timerState = Activity.Idle ∨ activity w.timerState = Activity.Paused) →
        ((handleMessage Message.pauseTimer now).run w).value = some (some Response.success)
          ∧ phase (after (handleMessage Message.pauseTimer now) w).timerState
              = phase w.timerState
          ∧ activity (after (handleMessage Message.pauseTimer now) w).timerState
              = activity w.timerState
          ∧ (after (handleMessage Message.pauseTimer now) w).timerState.endTime
              = w.timerState.endTime
          ∧ (after (handleMessage Message.pauseTimer now) w).timerState.timeRemaining
              = w.timerState.timeRemaining
          ∧ (after (handleMessage Message.pauseTimer now) w).timerState.totalTime
              = w.timerState.totalTime
          ∧ (after (handleMessage Message.pauseTimer now) w).syncSettings = w.syncSettings
          ∧ (after (handleMessage Message.pauseTimer now) w).dynamicRules = w.dynamicRules)
      ∧ ((activity w.timerState = Activity.Idle ∨ activity w.timerState = Activity.Running) →
        ((handleMessage Message.resumeTimer now).run w).value = some (some Response.success)
          ∧ phase (after (handleMessage Message.resumeTimer now) w).timerState
              = phase w.timerState
          ∧ activity (after (handleMessage Message.resumeTimer now) w).timerState
              = activity w.timerState
          ∧ (after (handleMessage Message.resumeTimer now) w).timerState.endTime
              = w.timerState.endTime
          ∧ (after (handleMessage Message.resumeTimer now) w).timerState.timeRemaining
              = w.timerState.timeRemaining
          ∧ (after (handleMessage Message.resumeTimer now) w).timerState.totalTime
              = w.timerState.totalTime
          ∧ (after (handleMessage Message.resumeTimer now) w).syncSettings = w.syncSettings
          ∧ (after (handleMessage Message.resumeTimer now) w).dynamicRules = w.dynamicRules)
      ∧ (activity w.timerState = Activity.Idle →
        (handleMessage Message.skipSession now).run w = Result.ok (some Response.success) w)
      ∧ (activity w.timerState = Activity.Paused →
        ((handleMessage Message.skipSession now).run w).value = some (some Response.success)
          ∧ phase (after (handleMessage Message.skipSession now) w).timerState
              ≠ phase w.timerState
          ∧ activity (after (handleMessage Message.skipSession now) w).timerState
              = Activity.Paused
          ∧ (after (handleMessage Message.skipSession now) w).timerState.endTime
              = some (now + phaseMinutes (currentSettings w)
                  (after (handleMessage Message.skipSession now) w).timerState * 60 * 1000)) := by
  refine ⟨?_, ?_, ?_, ?_⟩
  · intro h
    have hact : w.timerState.isRunning = false ∨ w.timerState.isPaused = true := by
      rcases h with h | h
      · exact Or.inl (isRunning_of_idle h)
      · exact Or.inr (isRunning_of_paused h).2
    rcases hact with h1 | h1 <;>
    simp [handleMessage, saveTimerState_run, hl, after, Result.world, Result.value, phase,
      activity, h1]
  · intro h
    have hact : w.timerState.isRunning = false ∨ w.timerState.isPaused = false := by
      rcases h with h | h
      · exact Or.inl (isRunning_of_idle h)
      · exact Or.inr (isRunning_of_running h).2
    by_cases ht : truthy w.timerState.intervalId = true <;>
    rcases hact with h1 | h1 <;>
    simp [handleMessage, saveTimerState_run, hl, startTimerInterval_run, ht, after, Result.world,
      Result.value, phase, activity, h1]
  · intro h
    simp [handleMessage, skipSession, isRunning_of_idle h]
  · intro h
    obtain ⟨h1, h2⟩ := isRunning_of_paused h
    cases hs : w.timerState.isStudySession <;>
    simp [handleMessage, skipSession, handleSessionEnd, updateBlockingRules_true_run,
      updateBlockingRules_false_run, hl, hr, h1, h2, hs, startTimerInterval_run, truthy,
      after, Result.world, Result.value, phase, activity, phaseMinutes, currentSettings]

/-- Witness of C19 amended: pausing the paused session of the example again
leaves its `endTime`, and a skip in the initial Idle world changes nothing. -/
theorem invalid_commands_except_skip_from_paused_witness :
    pausedSession.localFails = false ∧ pausedSession.rulesFail = false
      ∧ activity pausedSession.timerState = Activity.Paused
      ∧ (after (handleMessage Message.pauseTimer 20000) pausedSession).timerState.endTime
          = pausedSession.timerState.endTime
      ∧ activity initialWorld.timerState = Activity.Idle
      ∧ (handleMessage Message.skipSession 20000).run initialWorld
          = Result.ok (some Response.success) initialWorld :=
  ⟨by decide, by decide, by decide,
    ((invalid_commands_except_skip_from_paused pausedSession 20000 (by decide)
      (by decide)).1 (Or.inr (by decide))).2.2.2.1,
    by decide,
    (invalid_commands_except_skip_from_paused initialWorld 20000 (by decide)
      (by decide)).2.2.1 (by decide)⟩

/-! ## Ticks after recovery -/

theorem timerTick_run_before_deadline (w : World) (now nowEnd e : Int)
    (hrun : w.timerState.isRunning = true) (hp : w.timerState.isPaused = false)
    (he : w.timerState.endTime = some e) (hnow : now ≤ e - 1000)
    (hl : w.localFails = false) :
    (timerTick now nowEnd).run w
      = Result.ok ()
          { w with timerState := { w.timerState with timeRemaining := (e - now) / 1000 }
                   sent := Notification.timerTick
                     { w.timerState with timeRemaining := (e - now) / 1000 } :: w.sent
                   localTimerState :=
                     some { w.timerState with timeRemaining := (e - now) / 1000
                                              intervalId := none } } := by
  have hd : 1 ≤ (e - now) / 1000 := by omega
  have hd0 : ¬ (e - now) / 1000 ≤ 0 := by omega
  have hmax : max ((e - now) / 1000) 0 = (e - now) / 1000 := max_eq_left (by omega)
  simp [timerTick, hrun, hp, he, toNumber, hmax, hd0, saveTimerState_run, hl]

theorem runTicks_before_deadline (later : List (Int × Int)) (w : World) (e : Int)
    (hrun : w.timerState.isRunning = true) (hp : w.timerState.isPaused = false)
    (he : w.timerState.endTime = some e) (hl : w.localFails = false)
    (hlater : ∀ p ∈ later, p.1 ≤ e - 1000) :
    (runTicks later w).timerState.isRunning = true
      ∧ (runTicks later w).timerState.isPaused = false
      ∧ (runTicks later w).timerState.isStudySession = w.timerState.isStudySession
      ∧ (runTicks later w).timerState.endTime = some e
      ∧ (runTicks later w).timerState.totalTime = w.timerState.totalTime
      ∧ (runTicks later w).dynamicRules = w.dynamicRules
      ∧ (runTicks later w).syncSettings = w.syncSettings
      ∧ transitions (runTicks later w) = transitions w := by
  induction later generalizing w with
  | nil => simp [runTicks, hrun, hp, he]
  | cons p rest ih =>
    have hp1 : p.1 ≤ e - 1000 := hlater p (List.mem_cons_self _ _)
    have hstep := timerTick_run_before_deadline w p.1 p.2 e hrun hp he hp1 hl
    have hrest : ∀ q ∈ rest, q.1 ≤ e - 1000 := fun q hq => hlater q (List.mem_cons_of_mem _ hq)
    have h1 : (after (timerTick p.1 p.2) w).timerState.isRunning = true := by
      simp [after, hstep, Result.world, hrun]
    have h2 : (after (timerTick p.1 p.2) w).timerState.isPaused = false := by
      simp [after, hstep, Result.world, hp]
    have h3 : (after (timerTick p.1 p.2) w).timerState.endTime = some e := by
      simp [after, hstep, Result.world, he]
    have h4 : (after (timerTick p.1 p.2) w).localFails = false := by
      simp [after, hstep, Result.world, hl]
    have h5 : (after (timerTick p.1 p.2) w).timerState.isStudySession
        = w.timerState.isStudySession := by
      simp [after, hstep, Result.world]
    have h6 : (after (timerTick p.1 p.2) w).timerState.totalTime = w.timerState.totalTime := by
      simp [after, hstep, Result.world]
    have h7 : (after (timerTick p.1 p.2) w).dynamicRules = w.dynamicRules := by
      simp [after, hstep, Result.world]
    have h8 : (after (timerTick p.1 p.2) w).syncSettings = w.syncSettings := by
      simp [after, hstep, Result.world]
    have h9 : transitions (after (timerTick p.1 p.2) w) = transitions w := by
      simp [after, hstep, Result.world, transitions, isSessionEnded]
    obtain ⟨a1, a2, a3, a4, a5, a6, a7, a8⟩ :=
      ih (after (timerTick p.1 p.2) w) h1 h2 h3 h4 hrest
    exact ⟨a1, a2, a3.trans h5, a4, a5.trans h6, a6.trans h7, a7.trans h8, a8.trans h9⟩

theorem truthy_none : truthy none = false := rfl

theorem first_tick_after_recovery (w0 : World) (t : TimerState) (now nowEnd : Int)
    (hrec : w0.localTimerState = some t)
    (hrun : t.isRunning = true) (hp : t.isPaused = false) (hs : t.isStudySession = true)
    (hpast : toNumber t.endTime ≤ now)
    (hl : w0.localFails = false) (hr : w0.rulesFail = false) :
    (after (timerTick now nowEnd) (Step.apply Step.recovery w0)).timerState.isRunning = true
      ∧ (after (timerTick now nowEnd) (Step.apply Step.recovery w0)).timerState.isPaused = false
      ∧ (after (timerTick now nowEnd) (Step.apply Step.recovery w0)).timerState.isStudySession
          = false
      ∧ (after (timerTick now nowEnd) (Step.apply Step.recovery w0)).timerState.endTime
          = some (nowEnd + (currentSettings w0).breakTime * 60 * 1000)
      ∧ (after (timerTick now nowEnd) (Step.apply Step.recovery w0)).localFails = false
      ∧ transitions (after (timerTick now nowEnd) (Step.apply Step.recovery w0))
          = transitions w0 + 1 := by
  have hdiff : (toNumber t.endTime - now) / 1000 ≤ 0 := by omega
  by_cases ht : truthy t.intervalId = true <;>
  simp [Step.apply, workerLoaded, onStartup, hrec, hrun, hp, hs, ht, timerTick, handleSessionEnd,
    updateBlockingRules_false_run, saveTimerState_run, hl, hr, hdiff, startTimerInterval_run,
    truthy_none, after, Result.world, currentSettings, transitions, isSessionEnded]

/-- C16, as stated, fails in its last part: after the recovery of the session
of the example and the first tick 90 s past the persisted `endTime`, the phase
is Break with `endTime` 1890000 ms and one transition has been announced; the
later tick at 1889500 ms, before that `endTime`, finds less than one second
remaining and performs a second transition, back to Focus. -/
theorem second_transition_within_last_second :
    recoveredSession.timerState.endTime = some 1500000
      ∧ phase recoveredAfterFirstTick.timerState = Phase.Break
      ∧ recoveredAfterFirstTick.timerState.endTime = some 1890000
      ∧ transitions recoveredAfterFirstTick = 1
      ∧ (1889500 : Int) < 1890000
      ∧ phase (after (timerTick 1889500 1889500) recoveredAfterFirstTick).timerState
          = Phase.Focus
      ∧ transitions (after (timerTick 1889500 1889500) recoveredAfterFirstTick) = 2 := by
  decide

/-- C16, amended. After recovery from a persisted Running Focus record whose
`endTime` lies in the past, by 90 seconds or by any other amount, the first
tick performs one transition, to Break with
`endTime = nowEnd + breakTime * 60 * 1000` where `nowEnd` is the clock read by
the transition, and no later tick whose clock value is at least 1000 ms before
that new `endTime` performs a transition: after any sequence of such ticks the
phase is Break, the activity Running, `endTime` unchanged, and exactly one
transition has been announced since the recovery. -/
theorem recovery_single_transition (w0 : World) (t : TimerState) (now nowEnd : Int)
    (later : List (Int × Int))
    (hrec : w0.localTimerState = some t)
    (hRun : activity t = Activity.Running) (hFocus : phase t = Phase.Focus)
    (hpast : toNumber t.endTime ≤ now)
    (hl : w0.localFails = false) (hr : w0.rulesFail = false)
    (hlater : ∀ p ∈ later, p.1 ≤ nowEnd + (currentSettings w0).breakTime * 60 * 1000 - 1000) :
    phase (after (timerTick now nowEnd) (Step.apply Step.recovery w0)).timerState = Phase.Break
      ∧ activity (after (timerTick now nowEnd) (Step.apply Step.recovery w0)).timerState
          = Activity.Running
      ∧ (after (timerTick now nowEnd) (Step.apply Step.recovery w0)).timerState.endTime
          = some (nowEnd + (currentSettings w0).breakTime * 60 * 1000)
      ∧ transitions (after (timerTick now nowEnd) (Step.apply Step.recovery w0))
          = transitions w0 + 1
      ∧ phase (runTicks later
          (after (timerTick now nowEnd) (Step.apply Step.recovery w0))).timerState = Phase.Break
      ∧ activity (runTicks later
          (after (timerTick now nowEnd) (Step.apply Step.recovery w0))).timerState
          = Activity.Running
      ∧ (runTicks later
          (after (timerTick now nowEnd) (Step.apply Step.recovery w0))).timerState.endTime
          = some (nowEnd + (currentSettings w0).breakTime * 60 * 1000)
      ∧ transitions (runTicks later
          (after (timerTick now nowEnd) (Step.apply Step.recovery w0)))
          = transitions w0 + 1 := by
  obtain ⟨hrun, hp⟩ := isRunning_of_running hRun
  have hs : t.isStudySession = true := by
    revert hFocus
    cases h : t.isStudySession <;> simp [phase, h]
  obtain ⟨f1, f2, f3, f4, f5, f6⟩ :=
    first_tick_after_recovery w0 t now nowEnd hrec hrun hp hs hpast hl hr
  obtain ⟨l1, l2, l3, l4, _, _, _, l8⟩ :=
    runTicks_before_deadline later
      (after (timerTick now nowEnd) (Step.apply Step.recovery w0))
      (nowEnd + (currentSettings w0).breakTime * 60 * 1000) f1 f2 f4 f5 hlater
  refine ⟨?_, ?_, f4, f6, ?_, ?_, l4, ?_⟩
  · simp [phase, f3]
  · simp [activity, f1, f2]
  · simp [phase, l3, f3]
  · simp [activity, l1, l2]
  · rw [l8, f6]

/-- Witness of C16 amended, the scenario of the specification: the record of
the session of the example is recovered, the first tick comes 90 s past its
`endTime`, and after the later ticks at 1591 s and 1889 s exactly one
transition, to Break, has taken place. -/
theorem recovery_single_transition_witness :
    startedSession.localTimerState
        = some { isRunning := true
                 isPaused := false
                 isStudySession := true
                 endTime := some 1500000
                 timeRemaining := 1490
                 totalTime := 1500
                 intervalId := none }
      ∧ (1500000 : Int) + 90000 ≤ 1590000
      ∧ transitions startedSession = 0
      ∧ phase (runTicks [(1591000, 1591000), (1889000, 1889000)]
          (after (timerTick 1590000 1590000)
            (Step.apply Step.recovery startedSession))).timerState = Phase.Break
      ∧ transitions (runTicks [(1591000, 1591000), (1889000, 1889000)]
          (after (timerTick 1590000 1590000) (Step.apply Step.recovery startedSession)))
          = 0 + 1 :=
  ⟨by decide, by decide, by decide,
    (recovery_single_transition startedSession
      { isRunning := true
        isPaused := false
        isStudySession := true
        endTime := some 1500000
        timeRemaining := 1490
        totalTime := 1500
        intervalId := none }
      1590000 1590000 [(1591000, 1591000), (1889000, 1889000)]
      (by decide) (by decide) (by decide) (by decide) (by decide) (by decide)
      (by decide)).2.2.2.2.1,
    (recovery_single_transition startedSession
      { isRunning := true
        isPaused := false
        isStudySession := true
        endTime := some 1500000
        timeRemaining := 1490
        totalTime := 1500
        intervalId := none }
      1590000 1590000 [(1591000, 1591000), (1889000, 1889000)]
      (by decide) (by decide) (by decide) (by decide) (by decide) (by decide)
      (by decide)).2.2.2.2.2.2.2⟩

/-! ## The deadline invariant -/

theorem deadlineInvariant_idleWorld (stored : Option Settings) :
    deadlineInvariant (stored.getD DEFAULT_SETTINGS) (idleWorld stored) := by
  simp [deadlineInvariant, idleWorld, initialWorld, currentSettings, hasDeadline,
    initialTimerState]

theorem deadlineInvariant_start (settings : Settings) (w : World) (now : Int)
    (h : deadlineInvariant settings w) :
    deadlineInvariant settings (after (handleMessage Message.startTimer now) w) := by
  obtain ⟨h1, h2, hl, hr, ht, hrec⟩ := h
  by_cases hid : truthy w.timerState.intervalId = true <;>
  simp [deadlineInvariant, handleMessage, startStudySession, updateBlockingRules_true_run,
    saveTimerState_run, hl, hr, startTimerInterval_run, hid, after, Result.world, hasDeadline,
    phaseMinutes] <;>
  simp_all [currentSettings]

theorem deadlineInvariant_pause (settings : Settings) (w : World) (now : Int)
    (h : deadlineInvariant settings w) :
    deadlineInvariant settings (after (handleMessage Message.pauseTimer now) w) := by
  obtain ⟨h1, h2, hl, hr, ht, hrec⟩ := h
  simp [deadlineInvariant, handleMessage, saveTimerState_run, hl, hr, after, Result.world,
    hasDeadline, phaseMinutes] at *
  simp_all [currentSettings]

theorem deadlineInvariant_resume (settings : Settings) (w : World) (now : Int)
    (h : deadlineInvariant settings w) :
    deadlineInvariant settings (after (handleMessage Message.resumeTimer now) w) := by
  obtain ⟨h1, h2, hl, hr, ht, hrec⟩ := h
  by_cases hid : truthy w.timerState.intervalId = true <;>
  simp [deadlineInvariant, handleMessage, saveTimerState_run, hl, hr, startTimerInterval_run, hid,
    after, Result.world, hasDeadline, phaseMinutes] at * <;>
  simp_all [currentSettings]

theorem deadlineInvariant_reset (settings : Settings) (w : World) (now : Int)
    (h : deadlineInvariant settings w) :
    deadlineInvariant settings (after (handleMessage Message.resetTimer now) w) := by
  obtain ⟨h1, h2, hl, hr, ht, hrec⟩ := h
  simp [deadlineInvariant, handleMessage, resetTimer, updateBlockingRules_false_run,
    saveTimerState_run, hl, hr, after, Result.world, hasDeadline, phaseMinutes,
    initialTimerState] at *
  simp_all [currentSettings]

theorem deadlineInvariant_skip (settings : Settings) (w : World) (now : Int)
    (h : deadlineInvariant settings w) :
    deadlineInvariant settings (after (handleMessage Message.skipSession now) w) := by
  obtain ⟨h1, h2, hl, hr, ht, hrec⟩ := h
  cases hrun : w.timerState.isRunning <;>
  cases hs : w.timerState.isStudySession <;>
  simp [deadlineInvariant, handleMessage, skipSession, handleSessionEnd,
    updateBlockingRules_true_run, updateBlockingRules_false_run, hl, hr, hrun, hs,
    startTimerInterval_run, truthy_none, after, Result.world, hasDeadline, phaseMinutes] at * <;>
  simp_all [currentSettings]

theorem deadlineInvariant_tick (settings : Settings) (w : World) (now nowEnd : Int)
    (h : deadlineInvariant settings w) :
    deadlineInvariant settings (after (timerTick now nowEnd) w) := by
  obtain ⟨h1, h2, hl, hr, ht, hrec⟩ := h
  by_cases hd : (toNumber w.timerState.endTime - now) / 1000 ≤ 0 <;>
  cases hrun : w.timerState.isRunning <;>
  cases hp : w.timerState.isPaused <;>
  cases hs : w.timerState.isStudySession <;>
  simp [deadlineInvariant, timerTick, handleSessionEnd, updateBlockingRules_true_run,
    updateBlockingRules_false_run, saveTimerState_run, hl, hr, hrun, hp, hs, hd,
    startTimerInterval_run, truthy_none, after, Result.world, hasDeadline, phaseMinutes] at * <;>
  simp_all [currentSettings]

theorem deadlineInvariant_recovery (settings : Settings) (w : World)
    (h : deadlineInvariant settings w) :
    deadlineInvariant settings (after onStartup (workerLoaded w)) := by
  obtain ⟨h1, h2, hl, hr, ht, hrec⟩ := h
  cases hstored : w.localTimerState with
  | none =>
    simp [deadlineInvariant, onStartup, workerLoaded, hstored, after, Result.world, hasDeadline,
      initialTimerState, hl, hr]
    simp_all [currentSettings]
  | some r =>
    have hr0 := hrec r hstored
    cases hrun : r.isRunning <;>
    by_cases hid : truthy r.intervalId = true <;>
    simp [deadlineInvariant, onStartup, workerLoaded, hstored, hrun, hid, startTimerInterval_run,
      after, Result.world, hasDeadline, initialTimerState, hl, hr, phaseMinutes] at * <;>
    simp_all [currentSettings]

theorem deadlineInvariant_step (settings : Settings) (s : Step) (w : World)
    (h : deadlineInvariant settings w) : deadlineInvariant settings (s.apply w) := by
  cases s with
  | start now => exact deadlineInvariant_start settings w now h
  | pause now => exact deadlineInvariant_pause settings w now h
  | resume now => exact deadlineInvariant_resume settings w now h
  | reset now => exact deadlineInvariant_reset settings w now h
  | skip now => exact deadlineInvariant_skip settings w now h
  | tick now nowEnd => exact deadlineInvariant_tick settings w now nowEnd h
  | recovery => exact deadlineInvariant_recovery settings w h

theorem deadlineInvariant_runSteps (settings : Settings) (steps : List Step) (w : World)
    (h : deadlineInvariant settings w) : deadlineInvariant settings (runSteps steps w) := by
  induction steps generalizing w with
  | nil => exact h
  | cons s rest ih => exact ih (s.apply w) (deadlineInvariant_step settings s w h)

/-- C20. Invariant of the scheduler: in every state reached from the initial
Idle state, for any stored settings record, by any sequence of start, pause,
resume, reset, skip, tick and recovery steps, the configured durations are
still those of the initial record, and whenever the activity is Running
`endTime` is not `null` and `totalTime` is the configured duration of the
current phase times 60; the same holds while Paused. -/
theorem running_state_has_deadline (stored : Option Settings) (steps : List Step) :
    (currentSettings (runSteps steps (idleWorld stored))).studyTime
        = (stored.getD DEFAULT_SETTINGS).studyTime
      ∧ (currentSettings (runSteps steps (idleWorld stored))).breakTime
        = (stored.getD DEFAULT_SETTINGS).breakTime
      ∧ (activity (runSteps steps (idleWorld stored)).timerState ≠ Activity.Idle →
          (runSteps steps (idleWorld stored)).timerState.endTime ≠ none
            ∧ (runSteps steps (idleWorld stored)).timerState.totalTime
                = phaseMinutes (currentSettings (runSteps steps (idleWorld stored)))
                    (runSteps steps (idleWorld stored)).timerState * 60)
      ∧ (activity (runSteps steps (idleWorld stored)).timerState = Activity.Running →
          (runSteps steps (idleWorld stored)).timerState.endTime ≠ none
            ∧ (runSteps steps (idleWorld stored)).timerState.totalTime
                = phaseMinutes (stored.getD DEFAULT_SETTINGS)
                    (runSteps steps (idleWorld stored)).timerState * 60) := by
  obtain ⟨h1, h2, _, _, ht, _⟩ :=
    deadlineInvariant_runSteps (stored.getD DEFAULT_SETTINGS) steps (idleWorld stored)
      (deadlineInvariant_idleWorld stored)
  refine ⟨h1, h2, ?_, ?_⟩
  · intro hact
    have hrun : (runSteps steps (idleWorld stored)).timerState.isRunning = true := by
      revert hact
      cases hh : (runSteps steps (idleWorld stored)).timerState.isRunning <;>
        simp [activity, hh]
    obtain ⟨e1, e2⟩ := ht hrun
    refine ⟨e1, ?_⟩
    rw [e2]
    simp [phaseMinutes, h1, h2]
  · intro hact
    exact ht (isRunning_of_running hact).1

/-- Witness of C20: in a fresh profile, after start at 0, pause at 10 s, resume
at 70 s, the tick at 1500 s, a restart of the browser and a skip at 1600 s, the
state is Running in Focus with `endTime` set and `totalTime` 25 * 60. -/
theorem running_state_has_deadline_witness :
    activity (runSteps
        [Step.start 0, Step.pause 10000, Step.resume 70000, Step.tick 1500000 1500000,
          Step.recovery, Step.skip 1600000] (idleWorld none)).timerState = Activity.Running
      ∧ phase (runSteps
        [Step.start 0, Step.pause 10000, Step.resume 70000, Step.tick 1500000 1500000,
          Step.recovery, Step.skip 1600000] (idleWorld none)).timerState = Phase.Focus
      ∧ (runSteps
        [Step.start 0, Step.pause 10000, Step.resume 70000, Step.tick 1500000 1500000,
          Step.recovery, Step.skip 1600000] (idleWorld none)).timerState.endTime ≠ none
      ∧ (runSteps
        [Step.start 0, Step.pause 10000, Step.resume 70000, Step.tick 1500000 1500000,
          Step.recovery, Step.skip 1600000] (idleWorld none)).timerState.totalTime = 25 * 60 :=
  ⟨by decide, by decide,
    ((running_state_has_deadline none
      [Step.start 0, Step.pause 10000, Step.resume 70000, Step.tick 1500000 1500000,
        Step.recovery, Step.skip 1600000]).2.2.2 (by decide)).1,
    ((running_state_has_deadline none
      [Step.start 0, Step.pause 10000, Step.resume 70000, Step.tick 1500000 1500000,
        Step.recovery, Step.skip 1600000]).2.2.2 (by decide)).2⟩

/-! ## Notifications and ticks -/

theorem isStudySession_of_focus {t : TimerState} (h : phase t = Phase.Focus) :
    t.isStudySession = true := by
  revert h
  cases hs : t.isStudySession <;> simp [phase, hs]

theorem isStudySession_of_break {t : TimerState} (h : phase t = Phase.Break) :
    t.isStudySession = false := by
  revert h
  cases hs : t.isStudySession <;> simp [phase, hs]

/-- C22. Phase-ended notification: every phase transition, by skip in a running
session or by a tick of a Running session with less than one second remaining,
broadcasts exactly one `sessionEnded` message, as the most recent message, and
its type is `study` when the phase before the transition was Focus and `break`
when it was Break; a tick that does not expire broadcasts none. -/
theorem transition_emits_one_notification (w : World) (now nowEnd : Int)
    (hl : w.localFails = false) (hr : w.rulesFail = false) :
    (w.timerState.isRunning = true →
        (phase w.timerState = Phase.Focus →
          (after (handleMessage Message.skipSession now) w).sent
              = Notification.sessionEnded "study" :: w.sent
            ∧ phase (after (handleMessage Message.skipSession now) w).timerState = Phase.Break)
          ∧ (phase w.timerState = Phase.Break →
            (after (handleMessage Message.skipSession now) w).sent
                = Notification.sessionEnded "break" :: w.sent
              ∧ phase (after (handleMessage Message.skipSession now) w).timerState = Phase.Focus)
          ∧ transitions (after (handleMessage Message.skipSession now) w) = transitions w + 1)
      ∧ (activity w.timerState = Activity.Running → toNumber w.timerState.endTime - 1000 < now →
        (phase w.timerState = Phase.Focus →
          (after (timerTick now nowEnd) w).sent
              = Notification.sessionEnded "study"
                :: Notification.timerTick { w.timerState with timeRemaining := 0 } :: w.sent
            ∧ phase (after (timerTick now nowEnd) w).timerState = Phase.Break)
          ∧ (phase w.timerState = Phase.Break →
            (after (timerTick now nowEnd) w).sent
                = Notification.sessionEnded "break"
                  :: Notification.timerTick { w.timerState with timeRemaining := 0 } :: w.sent
              ∧ phase (after (timerTick now nowEnd) w).timerState = Phase.Focus)
          ∧ transitions (after (timerTick now nowEnd) w) = transitions w + 1)
      ∧ (activity w.timerState = Activity.Running → now ≤ toNumber w.timerState.endTime - 1000 →
        transitions (after (timerTick now nowEnd) w) = transitions w
          ∧ phase (after (timerTick now nowEnd) w).timerState = phase w.timerState) := by
  refine ⟨?_, ?_, ?_⟩
  · intro hrun
    cases hs : w.timerState.isStudySession <;>
    simp [handleMessage, skipSession, handleSessionEnd, updateBlockingRules_true_run,
      updateBlockingRules_false_run, hl, hr, hrun, hs, startTimerInterval_run, truthy_none,
      after, Result.world, phase, transitions, isSessionEnded]
  · intro hact hnow
    obtain ⟨hrun, hp⟩ := isRunning_of_running hact
    have hd : (toNumber w.timerState.endTime - now) / 1000 ≤ 0 := by omega
    cases hs : w.timerState.isStudySession <;>
    simp [timerTick, handleSessionEnd, updateBlockingRules_true_run,
      updateBlockingRules_false_run, saveTimerState_run, hl, hr, hrun, hp, hs, hd,
      startTimerInterval_run, truthy_none, after, Result.world, phase, transitions,
      isSessionEnded]
  · intro hact hnow
    obtain ⟨hrun, hp⟩ := isRunning_of_running hact
    have hd : ¬ (toNumber w.timerState.endTime - now) / 1000 ≤ 0 := by omega
    have hd1 : 0 ≤ (toNumber w.timerState.endTime - now) / 1000 := by omega
    simp [timerTick, saveTimerState_run, hl, hrun, hp, hd, hd1, after, Result.world, phase,
      transitions, isSessionEnded]

/-- Witness of C22: skipping the Focus session of the example broadcasts one
`sessionEnded` message of type `study`, and the tick at 1500 s does the same. -/
theorem transition_emits_one_notification_witness :
    startedSession.localFails = false ∧ startedSession.rulesFail = false
      ∧ startedSession.timerState.isRunning = true
      ∧ phase startedSession.timerState = Phase.Focus
      ∧ (after (handleMessage Message.skipSession 20000) startedSession).sent
          = Notification.sessionEnded "study" :: startedSession.sent
      ∧ transitions (after (timerTick 1500000 1500000) startedSession)
          = transitions startedSession + 1 :=
  ⟨by decide, by decide, by decide, by decide,
    (((transition_emits_one_notification startedSession 20000 20000 (by decide)
      (by decide)).1 (by decide)).1 (by decide)).1,
    ((transition_emits_one_notification startedSession 1500000 1500000 (by decide)
      (by decide)).2.1 (by decide) (by decide)).2.2⟩

/-- C29. Tick: for every Running state and every clock value `now` a tick of
the driver leaves `timeRemaining` equal to max(0, floor((endTime - now) / 1000)),
which is never negative and is 0 exactly when `now > endTime - 1000`; a tick in
a state that is not running, or is paused, leaves the whole world as it is: no
field of the timer state changes, nothing is broadcast and nothing is written
to the store. -/
theorem tick_recomputes_remaining (w : World) (now nowEnd : Int) :
    (activity w.timerState = Activity.Running →
        (after (timerTick now nowEnd) w).timerState.timeRemaining
            = max 0 ((toNumber w.timerState.endTime - now) / 1000)
          ∧ 0 ≤ (after (timerTick now nowEnd) w).timerState.timeRemaining
          ∧ ((after (timerTick now nowEnd) w).timerState.timeRemaining = 0
              ↔ now > toNumber w.timerState.endTime - 1000))
      ∧ (activity w.timerState ≠ Activity.Running →
        (timerTick now nowEnd).run w = Result.ok () w
          ∧ after (timerTick now nowEnd) w = w) := by
  refine ⟨?_, ?_⟩
  · intro hact
    obtain ⟨hrun, hp⟩ := isRunning_of_running hact
    have hrem : (after (timerTick now nowEnd) w).timerState.timeRemaining
        = max 0 ((toNumber w.timerState.endTime - now) / 1000) := by
      rw [max_comm]
      by_cases hd : (toNumber w.timerState.endTime - now) / 1000 ≤ 0 <;>
      cases hs : w.timerState.isStudySession <;>
      cases hl : w.localFails <;>
      cases hr : w.rulesFail <;>
      simp [timerTick, handleSessionEnd, updateBlockingRules_true_run,
        updateBlockingRules_false_run, saveTimerState_run, saveTimerState_fail_run,
        updateBlockingRules_fail_run, hl, hr, hrun, hp, hs, hd, startTimerInterval_run,
        truthy_none, after, Result.world, currentSettings]
    rw [hrem]
    refine ⟨rfl, le_max_left _ _, ?_⟩
    constructor
    · intro h0
      have : (toNumber w.timerState.endTime - now) / 1000 ≤ 0 := by
        have := le_max_right 0 ((toNumber w.timerState.endTime - now) / 1000)
        omega
      omega
    · intro hgt
      have : (toNumber w.timerState.endTime - now) / 1000 ≤ 0 := by omega
      exact max_eq_left this
  · intro hact
    have hgate : w.timerState.isRunning = false ∨ w.timerState.isPaused = true := by
      revert hact
      cases h1 : w.timerState.isRunning <;> cases h2 : w.timerState.isPaused <;>
        simp [activity, h1, h2]
    rcases hgate with h | h <;> simp [timerTick, h, after, Result.world]

/-- Witness of C29: in the session of the example after start, the tick at 10 s
stores 1490, and a tick of the paused session changes nothing. -/
theorem tick_recomputes_remaining_witness :
    activity (after (handleMessage Message.startTimer 0) initialWorld).timerState
        = Activity.Running
      ∧ (after (timerTick 10000 10000)
          (after (handleMessage Message.startTimer 0) initialWorld)).timerState.timeRemaining
          = max 0 ((1500000 - 10000) / 1000)
      ∧ activity pausedSession.timerState ≠ Activity.Running
      ∧ after (timerTick 71000 71000) pausedSession = pausedSession :=
  ⟨by decide,
    ((tick_recomputes_remaining (after (handleMessage Message.startTimer 0) initialWorld)
      10000 10000).1 (by decide)).1,
    by decide,
    ((tick_recomputes_remaining pausedSession 71000 71000).2 (by decide)).2⟩

/-! ## The driver invariant -/

theorem driverInvariant_idleWorld (stored : Option Settings) :
    driverInvariant (idleWorld stored) := by
  simp [driverInvariant, driverMatchesHandle, idleWorld, initialWorld, initialTimerState]

theorem driverInvariant_start (w : World) (now : Int) (h : driverInvariant w) :
    driverInvariant (after (handleMessage Message.startTimer now) w)
      ∧ oneDriverHeld (after (handleMessage Message.startTimer now) w) := by
  obtain ⟨hl, hr, hn, hm, hrun, hrec⟩ := h
  have hn0 : w.nextIntervalId ≠ 0 := by omega
  rcases hm with ⟨hnone, hact⟩ | ⟨id, hid, hsome, hact⟩
  · simp [driverInvariant, driverMatchesHandle, oneDriverHeld, handleMessage, startStudySession,
      updateBlockingRules_true_run, saveTimerState_run, hl, hr, startTimerInterval_run, hnone,
      hact, truthy, after, Result.world, hn0]
  · simp [driverInvariant, driverMatchesHandle, oneDriverHeld, handleMessage, startStudySession,
      updateBlockingRules_true_run, saveTimerState_run, hl, hr, startTimerInterval_run, hsome,
      hact, truthy, hid, after, Result.world, hn]

theorem driverInvariant_pause (w : World) (now : Int) (h : driverInvariant w) :
    driverInvariant (after (handleMessage Message.pauseTimer now) w)
      ∧ (after (handleMessage Message.pauseTimer now) w).timerState.intervalId
          = w.timerState.intervalId
      ∧ (after (handleMessage Message.pauseTimer now) w).activeIntervals = w.activeIntervals := by
  obtain ⟨hl, hr, hn, hm, hrun, hrec⟩ := h
  rcases hm with ⟨hnone, hact⟩ | ⟨id, hid, hsome, hact⟩
  · simp [driverInvariant, driverMatchesHandle, handleMessage, saveTimerState_run, hl, hr, hnone,
      hact, after, Result.world, hn]
    simpa [hnone] using hrun
  · simp [driverInvariant, driverMatchesHandle, handleMessage, saveTimerState_run, hl, hr, hsome,
      hact, hid, after, Result.world, hn]

theorem driverInvariant_resume (w : World) (now : Int) (h : driverInvariant w) :
    driverInvariant (after (handleMessage Message.resumeTimer now) w)
      ∧ oneDriverHeld (after (handleMessage Message.resumeTimer now) w) := by
  obtain ⟨hl, hr, hn, hm, hrun, hrec⟩ := h
  have hn0 : w.nextIntervalId ≠ 0 := by omega
  rcases hm with ⟨hnone, hact⟩ | ⟨id, hid, hsome, hact⟩
  · simp [driverInvariant, driverMatchesHandle, oneDriverHeld, handleMessage,
      saveTimerState_run, hl, hr, startTimerInterval_run, hnone,
      hact, truthy, after, Result.world, hn0]
  · simp [driverInvariant, driverMatchesHandle, oneDriverHeld, handleMessage,
      saveTimerState_run, hl, hr, startTimerInterval_run, hsome,
      hact, truthy, hid, after, Result.world, hn]

theorem driverInvariant_reset (w : World) (now : Int) (h : driverInvariant w) :
    driverInvariant (after (handleMessage Message.resetTimer now) w)
      ∧ (after (handleMessage Message.resetTimer now) w).timerState.intervalId = none
      ∧ (after (handleMessage Message.resetTimer now) w).activeIntervals = [] := by
  obtain ⟨hl, hr, hn, hm, hrun, hrec⟩ := h
  rcases hm with ⟨hnone, hact⟩ | ⟨id, hid, hsome, hact⟩
  · simp [driverInvariant, driverMatchesHandle, handleMessage, resetTimer,
      updateBlockingRules_false_run, saveTimerState_run, hl, hr, hnone, hact, after,
      Result.world, hn, initialTimerState]
  · simp [driverInvariant, driverMatchesHandle, handleMessage, resetTimer,
      updateBlockingRules_false_run, saveTimerState_run, hl, hr, hsome, hact, after,
      Result.world, hn, initialTimerState]

theorem driverInvariant_skip (w : World) (now : Int) (h : driverInvariant w) :
    driverInvariant (after (handleMessage Message.skipSession now) w)
      ∧ (w.timerState.isRunning = true →
          oneDriverHeld (after (handleMessage Message.skipSession now) w)) := by
  obtain ⟨hl, hr, hn, hm, hrun, hrec⟩ := h
  have hn0 : w.nextIntervalId ≠ 0 := by omega
  rcases hm with ⟨hnone, hact⟩ | ⟨id, hid, hsome, hact⟩
  · have hnr : w.timerState.isRunning = false := by
      cases hh : w.timerState.isRunning
      · rfl
      · exact absurd hnone (hrun hh)
    simp [driverInvariant, driverMatchesHandle, oneDriverHeld, handleMessage, skipSession, hnr,
      hl, hr, hnone, hact, after, Result.world, hn]
    exact hrec
  · cases hr1 : w.timerState.isRunning <;>
    cases hs : w.timerState.isStudySession <;>
    simp [driverInvariant, driverMatchesHandle, oneDriverHeld, handleMessage, skipSession,
      handleSessionEnd, updateBlockingRules_true_run, updateBlockingRules_false_run, hl, hr,
      hr1, hs, hsome, hact, hid, startTimerInterval_run, truthy_none, after, Result.world, hn,
      hn0] <;>
    exact hrec

theorem driverInvariant_tick (w : World) (now nowEnd : Int) (h : driverInvariant w) :
    driverInvariant (after (timerTick now nowEnd) w)
      ∧ (activity w.timerState = Activity.Running → toNumber w.timerState.endTime - 1000 < now →
          oneDriverHeld (after (timerTick now nowEnd) w)) := by
  obtain ⟨hl, hr, hn, hm, hrun, hrec⟩ := h
  have hn0 : w.nextIntervalId ≠ 0 := by omega
  by_cases hgate : w.timerState.isRunning = true ∧ w.timerState.isPaused = false
  · obtain ⟨hr1, hp⟩ := hgate
    rcases hm with ⟨hnone, hact⟩ | ⟨id, hid, hsome, hact⟩
    · exact absurd hnone (hrun hr1)
    · by_cases hd : (toNumber w.timerState.endTime - now) / 1000 ≤ 0
      · cases hs : w.timerState.isStudySession <;>
        simp [driverInvariant, driverMatchesHandle, oneDriverHeld, timerTick, handleSessionEnd,
          updateBlockingRules_true_run, updateBlockingRules_false_run, saveTimerState_run, hl,
          hr, hr1, hp, hs, hd, hsome, hact, hid, startTimerInterval_run, truthy_none, after,
          Result.world, hn0]
      · have hd1 : 0 ≤ (toNumber w.timerState.endTime - now) / 1000 := by omega
        have hnot : ¬ (toNumber w.timerState.endTime - 1000 < now) := by omega
        simp [driverInvariant, driverMatchesHandle, oneDriverHeld, timerTick,
          saveTimerState_run, hl, hr, hr1, hp, hd, hd1, hsome, hact, hid, after, Result.world,
          hn, hnot]
  · have hg : w.timerState.isRunning = false ∨ w.timerState.isPaused = true := by
      cases h1 : w.timerState.isRunning <;> cases h2 : w.timerState.isPaused <;> simp_all
    have hna : activity w.timerState ≠ Activity.Running := by
      intro ha
      obtain ⟨a1, a2⟩ := isRunning_of_running ha
      exact hgate ⟨a1, a2⟩
    have hsame : after (timerTick now nowEnd) w = w := by
      rcases hg with h1 | h1 <;> simp [timerTick, h1, after, Result.world]
    rw [hsame]
    exact ⟨⟨hl, hr, hn, hm, hrun, hrec⟩, fun ha => absurd ha hna⟩

theorem driverInvariant_recovery (w : World) (h : driverInvariant w) :
    driverInvariant (Step.apply Step.recovery w)
      ∧ (∀ r : TimerState, w.localTimerState = some r → r.isRunning = true →
          oneDriverHeld (Step.apply Step.recovery w)) := by
  obtain ⟨hl, hr, hn, hm, hrun, hrec⟩ := h
  cases hstored : w.localTimerState with
  | none =>
    simp [driverInvariant, driverMatchesHandle, Step.apply, onStartup, workerLoaded, hstored,
      after, Result.world, initialTimerState, hl, hr]
  | some r =>
    have hid : r.intervalId = none := hrec r hstored
    cases hr1 : r.isRunning <;>
    simp [driverInvariant, driverMatchesHandle, oneDriverHeld, Step.apply, onStartup,
      workerLoaded, hstored, hr1, hid, startTimerInterval_run, truthy_none, after, Result.world,
      initialTimerState, hl, hr]

theorem driverInvariant_step (s : Step) (w : World) (h : driverInvariant w) :
    driverInvariant (s.apply w) := by
  cases s with
  | start now => exact (driverInvariant_start w now h).1
  | pause now => exact (driverInvariant_pause w now h).1
  | resume now => exact (driverInvariant_resume w now h).1
  | reset now => exact (driverInvariant_reset w now h).1
  | skip now => exact (driverInvariant_skip w now h).1
  | tick now nowEnd => exact (driverInvariant_tick w now nowEnd h).1
  | recovery => exact (driverInvariant_recovery w h).1

theorem driverInvariant_runSteps (steps : List Step) (w : World) (h : driverInvariant w) :
    driverInvariant (runSteps steps w) := by
  induction steps generalizing w with
  | nil => exact h
  | cons s rest ih => exact ih (s.apply w) (driverInvariant_step s w h)

theorem driverInvariant_of_reachable {stored : Option Settings} {w : World}
    (h : Reachable stored w) : driverInvariant w := by
  obtain ⟨steps, rfl⟩ := h
  exact driverInvariant_runSteps steps _ (driverInvariant_idleWorld stored)

/-- C21, as stated, fails for pause: the paused session of the example still
holds the handle 1 set by start, and the timer with this handle is still live. -/
theorem pause_keeps_driver :
    activity startedSession.timerState = Activity.Running
      ∧ activity pausedSession.timerState = Activity.Paused
      ∧ pausedSession.timerState.intervalId = some 1
      ∧ pausedSession.timerState.intervalId ≠ none
      ∧ pausedSession.activeIntervals = [1] := by
  decide

/-- C21, amended. In every state reached from the initial Idle state by start,
pause, resume, reset, skip, tick and recovery steps at most one driver is live
and its handle is the one held. After reset no handle is held and no driver is
live. Pause stops no driver: the handle held before pause is held after it and
the same drivers are live, so pausing a running session leaves its one driver
live. After start, after resume, after a phase transition (skip of a running
session, or a tick of a Running session with less than one second remaining)
and after recovery of a running record exactly one driver is live and its
handle is held. -/
theorem driver_handle_after_commands (stored : Option Settings) (w : World) (now nowEnd : Int)
    (hreach : Reachable stored w) :
    driverMatchesHandle w
      ∧ ((after (handleMessage Message.resetTimer now) w).timerState.intervalId = none
          ∧ (after (handleMessage Message.resetTimer now) w).activeIntervals = [])
      ∧ ((after (handleMessage Message.pauseTimer now) w).timerState.intervalId
            = w.timerState.intervalId
          ∧ (after (handleMessage Message.pauseTimer now) w).activeIntervals = w.activeIntervals
          ∧ (w.timerState.isRunning = true →
              oneDriverHeld (after (handleMessage Message.pauseTimer now) w)))
      ∧ oneDriverHeld (after (handleMessage Message.startTimer now) w)
      ∧ oneDriverHeld (after (handleMessage Message.resumeTimer now) w)
      ∧ (w.timerState.isRunning = true →
          oneDriverHeld (after (handleMessage Message.skipSession now) w))
      ∧ (activity w.timerState = Activity.Running → toNumber w.timerState.endTime - 1000 < now →
          oneDriverHeld (after (timerTick now nowEnd) w))
      ∧ (∀ r : TimerState, w.localTimerState = some r → r.isRunning = true →
          oneDriverHeld (Step.apply Step.recovery w)) := by
  have hinv := driverInvariant_of_reachable hreach
  obtain ⟨_, hreset1, hreset2⟩ := driverInvariant_reset w now hinv
  obtain ⟨_, hpause1, hpause2⟩ := driverInvariant_pause w now hinv
  refine ⟨hinv.2.2.2.1, ⟨hreset1, hreset2⟩, ⟨hpause1, hpause2, ?_⟩,
    (driverInvariant_start w now hinv).2, (driverInvariant_resume w now hinv).2,
    (driverInvariant_skip w now hinv).2, (driverInvariant_tick w now nowEnd hinv).2,
    (driverInvariant_recovery w hinv).2⟩
  intro hrun
  have hheld := hinv.2.2.2.2.1 hrun
  rcases hinv.2.2.2.1 with ⟨hnone, _⟩ | ⟨id, _, hsome, hact⟩
  · exact absurd hnone hheld
  · exact ⟨id, by rw [hpause1, hsome], by rw [hpause2, hact]⟩

/-- Witness of C21 amended: the session of the example is reached by a start and
a tick; resetting it leaves no handle, and resuming it after a pause leaves
exactly one driver. -/
theorem driver_handle_after_commands_witness :
    Reachable none startedSession
      ∧ (after (handleMessage Message.resetTimer 20000) startedSession).timerState.intervalId
          = none
      ∧ oneDriverHeld (after (handleMessage Message.resumeTimer 20000) startedSession) :=
  ⟨⟨[Step.start 0, Step.tick 10000 10000], rfl⟩,
    (driver_handle_after_commands none startedSession 20000 20000
      ⟨[Step.start 0, Step.tick 10000 10000], rfl⟩).2.1.1,
    (driver_handle_after_commands none startedSession 20000 20000
      ⟨[Step.start 0, Step.tick 10000 10000], rfl⟩).2.2.2.2.1⟩

/-! ## The rule-table invariant -/

theorem rulesInvariant_idleWorld (stored : Option Settings) :
    rulesInvariant (stored.getD DEFAULT_SETTINGS).blockedSites (idleWorld stored) := by
  simp [rulesInvariant, idleWorld, initialWorld, currentSettings, initialTimerState]

theorem rulesInvariant_step (sites : List String) (s : Step) (w : World)
    (hs : s ≠ Step.recovery) (h : rulesInvariant sites w) :
    rulesInvariant sites (s.apply w) := by
  obtain ⟨hsites, hl, hr, hrules⟩ := h
  have hcs : (w.syncSettings.getD DEFAULT_SETTINGS).blockedSites = sites := hsites
  cases s with
  | start now =>
    by_cases hid : truthy w.timerState.intervalId = true <;>
    simp [rulesInvariant, Step.apply, handleMessage, startStudySession,
      updateBlockingRules_true_run, saveTimerState_run, hl, hr, startTimerInterval_run, hid,
      after, Result.world, currentSettings, hcs]
  | pause now =>
    simp [rulesInvariant, Step.apply, handleMessage, saveTimerState_run, hl, hr, after,
      Result.world, currentSettings, hcs, hrules]
  | resume now =>
    by_cases hid : truthy w.timerState.intervalId = true <;>
    simp [rulesInvariant, Step.apply, handleMessage, saveTimerState_run, hl, hr,
      startTimerInterval_run, hid, after, Result.world, currentSettings, hcs, hrules]
  | reset now =>
    simp [rulesInvariant, Step.apply, handleMessage, resetTimer, updateBlockingRules_false_run,
      saveTimerState_run, hl, hr, after, Result.world, currentSettings, hcs, initialTimerState]
  | skip now =>
    cases hrun : w.timerState.isRunning <;>
    cases hst : w.timerState.isStudySession <;>
    simp [rulesInvariant, Step.apply, handleMessage, skipSession, handleSessionEnd,
      updateBlockingRules_true_run, updateBlockingRules_false_run, hl, hr, hrun, hst,
      startTimerInterval_run, truthy_none, after, Result.world, currentSettings, hcs] <;>
    simp [hrules, hrun, hst]
  | tick now nowEnd =>
    by_cases hd : (toNumber w.timerState.endTime - now) / 1000 ≤ 0 <;>
    cases hrun : w.timerState.isRunning <;>
    cases hp : w.timerState.isPaused <;>
    cases hst : w.timerState.isStudySession <;>
    simp [rulesInvariant, Step.apply, timerTick, handleSessionEnd,
      updateBlockingRules_true_run, updateBlockingRules_false_run, saveTimerState_run, hl, hr,
      hrun, hp, hst, hd, startTimerInterval_run, truthy_none, after, Result.world,
      currentSettings, hcs] <;>
    simp [hrules, hrun, hst]
  | recovery => exact absurd rfl hs

theorem rulesInvariant_runSteps (sites : List String) (steps : List Step) (w : World)
    (hs : Step.recovery ∉ steps) (h : rulesInvariant sites w) :
    rulesInvariant sites (runSteps steps w) := by
  induction steps generalizing w with
  | nil => exact h
  | cons s rest ih =>
    have h1 : s ≠ Step.recovery := fun e => hs (by simp [e])
    have h2 : Step.recovery ∉ rest := fun e => hs (List.mem_cons_of_mem _ e)
    exact ih (s.apply w) h2 (rulesInvariant_step sites s w h1 h)

theorem newRules_ne_nil {sites : List String} (h : sites ≠ []) : newRules sites ≠ [] := by
  intro hnil
  have hlen := newRulesFrom_length sites 0
  rw [← newRules, hnil] at hlen
  cases sites with
  | nil => exact h rfl
  | cons a rest => simp at hlen

/-- C30. Rule table and phase: with a stored settings record whose list of
blocked sites is not empty (the default list when nothing is stored), in every
state reached from the initial Idle state, with no rule installed, by start,
pause, resume, reset, skip and tick steps, the configured sites are still the
same, the installed table is non-empty if and only if the timer is running,
Running or Paused, in Focus, and a non-empty table is the rule set of the
configured sites. -/
theorem rules_follow_phase (stored : Option Settings) (w : World)
    (hsites : (stored.getD DEFAULT_SETTINGS).blockedSites ≠ [])
    (hreach : ReachableWithoutRestart stored w) :
    (currentSettings w).blockedSites = (stored.getD DEFAULT_SETTINGS).blockedSites
      ∧ (w.dynamicRules ≠ [] ↔
          (activity w.timerState ≠ Activity.Idle ∧ phase w.timerState = Phase.Focus))
      ∧ (w.dynamicRules ≠ [] →
          w.dynamicRules = newRules (stored.getD DEFAULT_SETTINGS).blockedSites)
      ∧ (w.dynamicRules = [] ∨
          w.dynamicRules = newRules (currentSettings w).blockedSites) := by
  obtain ⟨steps, hnorec, rfl⟩ := hreach
  obtain ⟨h1, _, _, hrules⟩ :=
    rulesInvariant_runSteps (stored.getD DEFAULT_SETTINGS).blockedSites steps (idleWorld stored)
      hnorec (rulesInvariant_idleWorld stored)
  have hne := newRules_ne_nil hsites
  refine ⟨h1, ?_, ?_, ?_⟩
  · rw [hrules]
    cases hrun : (runSteps steps (idleWorld stored)).timerState.isRunning <;>
    cases hst : (runSteps steps (idleWorld stored)).timerState.isStudySession <;>
    cases hp : (runSteps steps (idleWorld stored)).timerState.isPaused <;>
    simp [activity, phase, hrun, hst, hp, hne]
  · intro hnn
    rw [hrules] at hnn ⊢
    split at hnn
    · simp_all
    · exact absurd rfl hnn
  · rw [hrules, h1]
    split
    · exact Or.inr rfl
    · exact Or.inl rfl

/-- Witness of C30: in a fresh profile, after start at 0, pause at 10 s, skip at
20 s and start at 30 s the timer is running in Focus and the installed table is
the rule set of the nine default sites. -/
theorem rules_follow_phase_witness :
    ((none : Option Settings).getD DEFAULT_SETTINGS).blockedSites ≠ []
      ∧ ReachableWithoutRestart none
          (runSteps [Step.start 0, Step.pause 10000, Step.skip 20000, Step.start 30000]
            (idleWorld none))
      ∧ ((runSteps [Step.start 0, Step.pause 10000, Step.skip 20000, Step.start 30000]
            (idleWorld none)).dynamicRules ≠ [] ↔
          (activity (runSteps [Step.start 0, Step.pause 10000, Step.skip 20000,
              Step.start 30000] (idleWorld none)).timerState ≠ Activity.Idle
            ∧ phase (runSteps [Step.start 0, Step.pause 10000, Step.skip 20000,
              Step.start 30000] (idleWorld none)).timerState = Phase.Focus))
      ∧ (runSteps [Step.start 0, Step.pause 10000, Step.skip 20000, Step.start 30000]
            (idleWorld none)).dynamicRules.length = 18 :=
  ⟨by decide,
    ⟨[Step.start 0, Step.pause 10000, Step.skip 20000, Step.start 30000], by decide, rfl⟩,
    (rules_follow_phase none
      (runSteps [Step.start 0, Step.pause 10000, Step.skip 20000, Step.start 30000]
        (idleWorld none))
      (by decide)
      ⟨[Step.start 0, Step.pause 10000, Step.skip 20000, Step.start 30000], by decide,
        rfl⟩).2.1,
    by decide⟩

/-! ## Failures of the store and of the rule facility -/

/-- C23, as stated, fails: with a local store that rejects writes, pausing the
session of the example sends no response at all, neither a success nor a
failure, and so does starting a session in a fresh profile; the in-memory state
holds the update of the command. Skipping, which writes no timer state, reports
success. -/
theorem store_failure_is_not_reported :
    (withFailingStore startedSession).localFails = true
      ∧ ((handleMessage Message.pauseTimer 20000).run (withFailingStore startedSession)).value
          = none
      ∧ activity (after (handleMessage Message.pauseTimer 20000)
          (withFailingStore startedSession)).timerState = Activity.Paused
      ∧ ((handleMessage Message.startTimer 0).run (withFailingStore initialWorld)).value = none
      ∧ activity (after (handleMessage Message.startTimer 0)
          (withFailingStore initialWorld)).timerState = Activity.Running
      ∧ ((handleMessage Message.skipSession 20000).run (withFailingStore startedSession)).value
          = some (some Response.success) := by
  decide

/-- C23, amended. A failing write of the timer state is not reported as a
failure: for start, pause, resume and reset the handler throws at the write, so
that no response is sent, while the in-memory state keeps the update of the
command and the persisted record stays as it was; start has installed the rules
by then and does not reach the creation of the driver. Skip writes no timer
state and answers as with a working store. -/
theorem store_failure_sends_no_response (w : World) (now : Int)
    (hl : w.localFails = true) (hr : w.rulesFail = false) :
    (handleMessage Message.startTimer now).run w
        = Result.threw
            { w with timerState :=
                       { w.timerState with
                           isRunning := true
                           isPaused := false
                           isStudySession := true
                           totalTime := (currentSettings w).studyTime * 60
                           endTime := some (now + (currentSettings w).studyTime * 60 * 1000) }
                     dynamicRules := newRules (currentSettings w).blockedSites }
      ∧ (handleMessage Message.pauseTimer now).run w
          = Result.threw { w with timerState := { w.timerState with isPaused := true } }
      ∧ ((handleMessage Message.resumeTimer now).run w).value = none
      ∧ (after (handleMessage Message.resumeTimer now) w).timerState.isPaused = false
      ∧ (after (handleMessage Message.resumeTimer now) w).localTimerState = w.localTimerState
      ∧ ((handleMessage Message.resetTimer now).run w).value = none
      ∧ (after (handleMessage Message.resetTimer now) w).timerState = initialTimerState
      ∧ (after (handleMessage Message.resetTimer now) w).localTimerState = w.localTimerState
      ∧ ((handleMessage Message.skipSession now).run w).value = some (some Response.success)
      ∧ (after (handleMessage Message.skipSession now) w).localTimerState
          = w.localTimerState := by
  refine ⟨?_, ?_, ?_, ?_, ?_, ?_, ?_, ?_, ?_, ?_⟩
  · simp [handleMessage, startStudySession, updateBlockingRules_true_run,
      saveTimerState_fail_run, hl, hr]
    rfl
  · simp [handleMessage, saveTimerState_fail_run, hl]
  · by_cases hid : truthy w.timerState.intervalId = true <;>
    simp [handleMessage, startTimerInterval_run, hid, saveTimerState_fail_run, hl, Result.value]
  · by_cases hid : truthy w.timerState.intervalId = true <;>
    simp [handleMessage, startTimerInterval_run, hid, saveTimerState_fail_run, hl, after,
      Result.world]
  · by_cases hid : truthy w.timerState.intervalId = true <;>
    simp [handleMessage, startTimerInterval_run, hid, saveTimerState_fail_run, hl, after,
      Result.world]
  · simp [handleMessage, resetTimer, updateBlockingRules_false_run, saveTimerState_fail_run, hl,
      hr, Result.value]
  · simp [handleMessage, resetTimer, updateBlockingRules_false_run, saveTimerState_fail_run, hl,
      hr, after, Result.world]
  · simp [handleMessage, resetTimer, updateBlockingRules_false_run, saveTimerState_fail_run, hl,
      hr, after, Result.world]
  · cases hrun : w.timerState.isRunning <;>
    cases hs : w.timerState.isStudySession <;>
    simp [handleMessage, skipSession, handleSessionEnd, updateBlockingRules_true_run,
      updateBlockingRules_false_run, hl, hr, hrun, hs, startTimerInterval_run, truthy_none,
      Result.value]
  · cases hrun : w.timerState.isRunning <;>
    cases hs : w.timerState.isStudySession <;>
    simp [handleMessage, skipSession, handleSessionEnd, updateBlockingRules_true_run,
      updateBlockingRules_false_run, hl, hr, hrun, hs, startTimerInterval_run, truthy_none,
      after, Result.world]

/-- Witness of C23 amended: pausing the session of the example with a failing
store throws, leaving the state paused in memory and the persisted record as
it was. -/
theorem store_failure_sends_no_response_witness :
    (withFailingStore startedSession).localFails = true
      ∧ (withFailingStore startedSession).rulesFail = false
      ∧ (handleMessage Message.pauseTimer 20000).run (withFailingStore startedSession)
          = Result.threw
              { withFailingStore startedSession with
                  timerState := { startedSession.timerState with isPaused := true } } :=
  ⟨by decide, by decide,
    (store_failure_sends_no_response (withFailingStore startedSession) 20000 (by decide)
      (by decide)).2.1⟩

/-- C24, as stated, fails: with a rule facility that rejects its calls, the start
command in a fresh profile sets the state to Running in memory but sends no
response, persists nothing and creates no driver; the tick at 1500 s of the
session of the example moves the in-memory state to Break, but the persisted
record is still the Focus record of the tick at 10 s, the handle is dropped and
no driver is live. -/
theorem rule_failure_stops_command :
    (withFailingRules initialWorld).rulesFail = true
      ∧ ((handleMessage Message.startTimer 0).run (withFailingRules initialWorld)).value = none
      ∧ activity (after (handleMessage Message.startTimer 0)
          (withFailingRules initialWorld)).timerState = Activity.Running
      ∧ (after (handleMessage Message.startTimer 0)
          (withFailingRules initialWorld)).localTimerState = none
      ∧ (after (handleMessage Message.startTimer 0)
          (withFailingRules initialWorld)).timerState.intervalId = none
      ∧ (after (handleMessage Message.startTimer 0)
          (withFailingRules initialWorld)).activeIntervals = []
      ∧ phase (after (timerTick 1500000 1500000)
          (withFailingRules startedSession)).timerState = Phase.Break
      ∧ activity (after (timerTick 1500000 1500000)
          (withFailingRules startedSession)).timerState = Activity.Running
      ∧ (after (timerTick 1500000 1500000) (withFailingRules startedSession)).localTimerState
          = startedSession.localTimerState
      ∧ (after (timerTick 1500000 1500000)
          (withFailingRules startedSession)).timerState.intervalId = none
      ∧ (after (timerTick 1500000 1500000) (withFailingRules startedSession)).activeIntervals
          = [] := by
  decide

/-- C24, amended. A failure of the rule facility stops the command at the
synchronization. Start throws after its in-memory update and changes nothing
else: no response, no write of the timer state, no driver. A transition, by
tick or by skip, throws after its in-memory update of the phase, `totalTime`
and `endTime` (and, after Focus, after storing the incremented counter): no
`sessionEnded` message, no write of the timer state, and the handle is dropped
without a new driver. The state is then running without a handle, so the next
liveness check creates the driver. -/
theorem rule_failure_throws_after_update (w : World) (now nowEnd : Int)
    (hr : w.rulesFail = true) :
    (handleMessage Message.startTimer now).run w
        = Result.threw
            { w with timerState :=
                       { w.timerState with
                           isRunning := true
                           isPaused := false
                           isStudySession := true
                           totalTime := (currentSettings w).studyTime * 60
                           endTime := some (now + (currentSettings w).studyTime * 60 * 1000) } }
      ∧ (activity w.timerState = Activity.Running → toNumber w.timerState.endTime - 1000 < now →
          ((timerTick now nowEnd).run w).value = none
            ∧ phase (after (timerTick now nowEnd) w).timerState ≠ phase w.timerState
            ∧ activity (after (timerTick now nowEnd) w).timerState = Activity.Running
            ∧ (after (timerTick now nowEnd) w).timerState.totalTime
                = phaseMinutes (currentSettings w) (after (timerTick now nowEnd) w).timerState * 60
            ∧ (after (timerTick now nowEnd) w).timerState.endTime
                = some (nowEnd
                    + phaseMinutes (currentSettings w)
                        (after (timerTick now nowEnd) w).timerState * 60 * 1000)
            ∧ (after (timerTick now nowEnd) w).localTimerState = w.localTimerState
            ∧ transitions (after (timerTick now nowEnd) w) = transitions w
            ∧ (after (timerTick now nowEnd) w).timerState.intervalId = none
            ∧ (∀ id : Nat, w.timerState.intervalId = some id →
                id ∉ (after (timerTick now nowEnd) w).activeIntervals)
            ∧ (after onAlarm (after (timerTick now nowEnd) w)).timerState.intervalId
                = some w.nextIntervalId
            ∧ w.nextIntervalId ∈ (after onAlarm (after (timerTick now nowEnd) w)).activeIntervals)
      ∧ (w.timerState.isRunning = true →
          ((handleMessage Message.skipSession now).run w).value = none
            ∧ phase (after (handleMessage Message.skipSession now) w).timerState
                ≠ phase w.timerState
            ∧ (after (handleMessage Message.skipSession now) w).localTimerState
                = w.localTimerState
            ∧ transitions (after (handleMessage Message.skipSession now) w) = transitions w
            ∧ (after (handleMessage Message.skipSession now) w).timerState.intervalId = none) := by
  refine ⟨?_, ?_, ?_⟩
  · simp [handleMessage, startStudySession, updateBlockingRules_fail_run, hr]
  · intro hact hnow
    obtain ⟨hrun, hp⟩ := isRunning_of_running hact
    have hd : (toNumber w.timerState.endTime - now) / 1000 ≤ 0 := by omega
    cases hs : w.timerState.isStudySession <;>
    cases hid : w.timerState.intervalId <;>
    simp [timerTick, handleSessionEnd, updateBlockingRules_fail_run, hr, hrun, hp, hs, hd, hid,
      onAlarm, startTimerInterval_run, truthy_none, after, Result.world, Result.value, phase,
      activity, phaseMinutes, currentSettings, transitions, isSessionEnded]
  · intro hrun
    cases hs : w.timerState.isStudySession <;>
    simp [handleMessage, skipSession, handleSessionEnd, updateBlockingRules_fail_run, hr, hrun,
      hs, after, Result.world, Result.value, phase, transitions]

/-- Witness of C24 amended: with a failing rule facility the tick at 1500 s of
the session of the example throws with the state in Break and no handle, and
the liveness check then creates the driver with handle 2. -/
theorem rule_failure_throws_after_update_witness :
    (withFailingRules startedSession).rulesFail = true
      ∧ activity (withFailingRules startedSession).timerState = Activity.Running
      ∧ ((timerTick 1500000 1500000).run (withFailingRules startedSession)).value = none
      ∧ (after onAlarm (after (timerTick 1500000 1500000)
          (withFailingRules startedSession))).timerState.intervalId = some 2 :=
  ⟨by decide, by decide,
    ((rule_failure_throws_after_update (withFailingRules startedSession) 1500000 1500000
      (by decide)).2.1 (by decide) (by decide)).1,
    ((rule_failure_throws_after_update (withFailingRules startedSession) 1500000 1500000
      (by decide)).2.1 (by decide) (by decide)).2.2.2.2.2.2.2.2.2.1⟩

/-! ## The page-level guard -/

theorem removeLeadingWww_append (rest : String) : removeLeadingWww ("www." ++ rest) = rest := by
  have h : ("www." ++ rest).data = 'w' :: 'w' :: 'w' :: '.' :: rest.data := rfl
  simp [removeLeadingWww, h, List.isPrefixOf]

theorem removeLeadingWww_of_not_prefix (s : String) (h : ¬ ("www.".data <+: s.data)) :
    removeLeadingWww s = s := by
  have h2 : "www.".data.isPrefixOf s.data = false := by
    cases hp : "www.".data.isPrefixOf s.data
    · rfl
    · exact absurd (List.isPrefixOf_iff_prefix.1 hp) h
  simp [removeLeadingWww, h2]

theorem isBlockedSite_iff (toLowerCase : String → String) (currentHost site : String) :
    isBlockedSite toLowerCase currentHost site = true ↔
      (removeLeadingWww currentHost = removeLeadingWww (toLowerCase site)
        ∨ ("." ++ removeLeadingWww (toLowerCase site)).data
            <:+ (removeLeadingWww currentHost).data) := by
  simp [isBlockedSite, endsWith]

/-- C26. Page-level guard: for every timer state, settings record and host
name, the content script redirects the page to the blocked page if and only if
the timer is running, not paused and in a study session, and for some blocked
site the lower-cased host name with a leading `www.` removed equals the
lower-cased site with a leading `www.` removed, or ends with `.` followed by
it. Removing a leading `www.` turns `www.` followed by `rest` into
`rest` and leaves a string that does not start with `www.` as it is. -/
theorem page_guard_blocks_during_study (toLowerCase : String → String) (w : World) (now : Int)
    (hostname : String) :
    (pageIsRedirected toLowerCase w now hostname = true ↔
        (w.timerState.isRunning = true ∧ w.timerState.isPaused = false
          ∧ w.timerState.isStudySession = true)
        ∧ ∃ site ∈ (currentSettings w).blockedSites,
            (removeLeadingWww (toLowerCase hostname) = removeLeadingWww (toLowerCase site)
              ∨ ("." ++ removeLeadingWww (toLowerCase site)).data
                  <:+ (removeLeadingWww (toLowerCase hostname)).data))
      ∧ (∀ rest : String, removeLeadingWww ("www." ++ rest) = rest)
      ∧ (∀ s : String, ¬ ("www.".data <+: s.data) → removeLeadingWww s = s) := by
  refine ⟨?_, removeLeadingWww_append, removeLeadingWww_of_not_prefix⟩
  have hresp : ((handleMessage Message.getState now).run w).value.join
      = some (Response.state w.timerState (currentSettings w)) := by
    simp [handleMessage, Result.value]
  rw [pageIsRedirected, hresp]
  cases hrun : w.timerState.isRunning <;>
  cases hp : w.timerState.isPaused <;>
  cases hs : w.timerState.isStudySession <;>
  simp [checkIfBlocked, hrun, hp, hs, List.any_eq_true, isBlockedSite_iff]

/-- Witness of C26: in the Focus session of the example the pages of
WWW.YouTube.com and m.youtube.com are redirected, the page of
notyoutube.com is not, and no page is redirected while the session is paused;
`foo.com` does not start with `www.` and stays as it is. -/
theorem page_guard_blocks_during_study_witness :
    pageIsRedirected ResumeScanner.asciiLower startedSession 20000 "WWW.YouTube.com" = true
      ∧ pageIsRedirected ResumeScanner.asciiLower startedSession 20000 "m.youtube.com" = true
      ∧ pageIsRedirected ResumeScanner.asciiLower startedSession 20000 "notyoutube.com" = false
      ∧ pageIsRedirected ResumeScanner.asciiLower pausedSession 20000 "youtube.com" = false
      ∧ ¬ ("www.".data <+: "foo.com".data)
      ∧ removeLeadingWww "foo.com" = "foo.com" :=
  ⟨by decide, by decide, by decide, by decide, by decide,
    (page_guard_blocks_during_study ResumeScanner.asciiLower startedSession 20000
      "foo.com").2.2 "foo.com" (by decide)⟩

/-! ## States reached through the settings form and the install listener -/

/-- C5, evaluated on the code: in the profile with three completed sessions the
settings form is saved, which stores the record without `sessionsCompleted`,
and a Focus session is started. Skipping this Running Focus session reports
success, moves to Break and leaves no rule installed, but the stored counter,
missing before the skip, is `NaN` after it instead of one more than before. -/
theorem skip_after_form_save_stores_nan :
    formSettings = some formRecord
      ∧ activity formSavedSession.timerState = Activity.Running
      ∧ phase formSavedSession.timerState = Phase.Focus
      ∧ (currentSettings formSavedSession).sessionsCompleted = JsNum.undefined
      ∧ ((handleMessage Message.skipSession 2000).run formSavedSession).value
          = some (some Response.success)
      ∧ (currentSettings (after (handleMessage Message.skipSession 2000)
          formSavedSession)).sessionsCompleted = JsNum.nan
      ∧ phase (after (handleMessage Message.skipSession 2000) formSavedSession).timerState
          = Phase.Break
      ∧ (after (handleMessage Message.skipSession 2000) formSavedSession).dynamicRules = [] := by
  decide

/-- C6, evaluated on the code: the Focus session started at 1 s after the
settings form was saved is Running with `endTime` 1501000 ms. The tick at that
clock value moves to Break, Running, with `totalTime` 300, `endTime`
1801000 ms and no rule installed, but the stored counter, missing before the
tick, is `NaN` after it instead of one more than before. -/
theorem expiry_after_form_save_stores_nan :
    formSettings = some formRecord
      ∧ activity formSavedSession.timerState = Activity.Running
      ∧ phase formSavedSession.timerState = Phase.Focus
      ∧ formSavedSession.timerState.endTime = some 1501000
      ∧ (currentSettings formSavedSession).sessionsCompleted = JsNum.undefined
      ∧ (currentSettings (after (timerTick 1501000 1501000)
          formSavedSession)).sessionsCompleted = JsNum.nan
      ∧ phase (after (timerTick 1501000 1501000) formSavedSession).timerState = Phase.Break
      ∧ activity (after (timerTick 1501000 1501000) formSavedSession).timerState
          = Activity.Running
      ∧ (after (timerTick 1501000 1501000) formSavedSession).timerState.totalTime = 300
      ∧ (after (timerTick 1501000 1501000) formSavedSession).timerState.endTime
          = some 1801000
      ∧ (after (timerTick 1501000 1501000) formSavedSession).dynamicRules = [] := by
  decide

/-- C15, evaluated on the code: the session of the example is recovered at a
start of the browser, which creates the driver with handle 1, and the install
listener then persists the in-memory state with this handle. At the next start
of the browser the persisted record is Running, and the startup listener makes
the in-memory state equal to it, `endTime` 1500000 ms included, but starts no
driver, because the restored handle makes `startTimerInterval` return at once;
neither the liveness check nor a resume command creates one afterwards. -/
theorem startup_keeps_stale_handle :
    recoveredSession.timerState.intervalId = some 1
      ∧ recoveredSession.activeIntervals = [1]
      ∧ staleHandleWorld.localTimerState
          = some { isRunning := true
                   isPaused := false
                   isStudySession := true
                   endTime := some 1500000
                   timeRemaining := 1490
                   totalTime := 1500
                   intervalId := some 1 }
      ∧ staleHandleWorld.localTimerState.map activity = some Activity.Running
      ∧ some (Step.apply Step.recovery staleHandleWorld).timerState
          = staleHandleWorld.localTimerState
      ∧ (workerLoaded staleHandleWorld).activeIntervals = []
      ∧ (Step.apply Step.recovery staleHandleWorld).activeIntervals = []
      ∧ (after onAlarm (Step.apply Step.recovery staleHandleWorld)).activeIntervals = []
      ∧ (after (handleMessage Message.resumeTimer 1600000)
          (Step.apply Step.recovery staleHandleWorld)).activeIntervals = [] := by
  decide

end DistractionBlocker

namespace ResumeScanner

/-! ## Lines of a text -/

theorem splitLineFeed_ne_nil (cs : List Char) : splitLineFeed cs ≠ [] := by
  cases cs with
  | nil => simp [splitLineFeed]
  | cons c cs =>
    simp only [splitLineFeed]
    split
    · simp
    · split <;> simp

theorem joinLineFeed_cons_cons (c : Char) (line : List Char) (rest : List (List Char)) :
    joinLineFeed ((c :: line) :: rest) = c :: joinLineFeed (line :: rest) := by
  cases rest <;> simp [joinLineFeed]

theorem joinLineFeed_splitLineFeed (cs : List Char) : joinLineFeed (splitLineFeed cs) = cs := by
  induction cs with
  | nil => simp [splitLineFeed, joinLineFeed]
  | cons c cs ih =>
    simp only [splitLineFeed]
    split
    · next hc =>
      cases hsplit : splitLineFeed cs with
      | nil => exact absurd hsplit (splitLineFeed_ne_nil cs)
      | cons line rest =>
        rw [hsplit] at ih
        simp [joinLineFeed, ih, hc]
    · cases hsplit : splitLineFeed cs with
      | nil => exact absurd hsplit (splitLineFeed_ne_nil cs)
      | cons line rest =>
        rw [hsplit] at ih
        simp only []
        rw [joinLineFeed_cons_cons, ih]

theorem joinLineFeed_tail_suffix (line : List Char) (rest : List (List Char)) :
    joinLineFeed rest <:+ joinLineFeed (line :: rest) := by
  cases rest with
  | nil => simp [joinLineFeed]
  | cons next rest =>
    simp only [joinLineFeed]
    exact ⟨line ++ [lineFeed], by simp⟩

theorem joinLineFeed_drop_suffix (i : Nat) (lines : List (List Char)) :
    joinLineFeed (lines.drop i) <:+ joinLineFeed lines := by
  induction i generalizing lines with
  | zero => simp
  | succ i ih =>
    cases lines with
    | nil => simp
    | cons line rest =>
      simp only [List.drop_succ_cons]
      exact (ih rest).trans (joinLineFeed_tail_suffix line rest)

theorem includes_iff_infix (keyword line : List Char) :
    includes keyword line = true ↔ keyword <:+: line := by
  induction line with
  | nil => simp [includes]
  | cons c cs ih =>
    simp only [includes, Bool.or_eq_true, List.isPrefixOf_iff_prefix, ih]
    exact List.infix_cons_iff.symm

theorem requirementsStart_some (toLowerCase : String → String) (lines : List (List Char))
    (k i : Nat) (line : List Char)
    (hline : lines[i]? = some line) (hkey : hasKeyword toLowerCase line = true)
    (hfirst : ∀ j l, j < i → lines[j]? = some l → hasKeyword toLowerCase l = false) :
    requirementsStart toLowerCase k lines = some (k + i) := by
  induction lines generalizing k i with
  | nil => simp at hline
  | cons first rest ih =>
    cases i with
    | zero =>
      have e : first = line := by simpa using hline
      simp [requirementsStart, e, hkey]
    | succ i =>
      have h0 : hasKeyword toLowerCase first = false := hfirst 0 first (by omega) (by simp)
      have hrest := ih (k + 1) i (by simpa using hline)
        (fun j l hj hl => hfirst (j + 1) l (by omega) (by simpa using hl))
      simp only [requirementsStart, h0, Bool.false_eq_true, if_false, hrest]
      congr 1
      omega

theorem requirementsStart_none (toLowerCase : String → String) (lines : List (List Char))
    (k : Nat) (hnone : ∀ line ∈ lines, hasKeyword toLowerCase line = false) :
    requirementsStart toLowerCase k lines = none := by
  induction lines generalizing k with
  | nil => rfl
  | cons first rest ih =>
    have h0 := hnone first (List.mem_cons_self _ _)
    simp only [requirementsStart, h0, Bool.false_eq_true, if_false]
    exact ih (k + 1) (fun line hl => hnone line (List.mem_cons_of_mem _ hl))

/-! ## cleanText and extractRequirements -/

/-- C27, evaluated on the code: the first replacement, of `\s+`, already turns
every run of white space, line feeds included, into one space, so the second
replacement finds no line feed. For `a`, three line feeds, `b` the result is
`a b`, not `a`, two line feeds, `b`, and a paragraph break of two line feeds
becomes a space as well. Runs of spaces do become one space, the ends are
trimmed, and an empty or non-string input gives the empty string. -/
theorem cleanText_replaces_newlines_by_spaces :
    cleanText (some "a\n\n\nb") = "a b"
      ∧ cleanText (some "a\n\n\nb") ≠ "a\n\nb"
      ∧ cleanText (some "one\n\ntwo") = "one two"
      ∧ cleanText (some "  x   y  ") = "x y"
      ∧ cleanText (some "") = ""
      ∧ cleanText none = "" := by
  decide

/-- C28. `extractRequirements`: for every job description, if some line has a
keyword, that is its lower-cased text includes one of the six keywords, the
result is the text from the first such line to the end, the lines joined by
line feeds; if no line has a keyword the result is the whole description; the
result is always a suffix of the input, and it is empty for the empty input. -/
theorem extractRequirements_from_first_keyword_line (toLowerCase : String → String)
    (jobDescription : String) :
    (jobDescription = "" → extractRequirements toLowerCase jobDescription = "")
      ∧ (∀ (i : Nat) (line : List Char),
          (splitLineFeed jobDescription.data)[i]? = some line →
          hasKeyword toLowerCase line = true →
          (∀ (j : Nat) (l : List Char), j < i →
            (splitLineFeed jobDescription.data)[j]? = some l →
            hasKeyword toLowerCase l = false) →
          extractRequirements toLowerCase jobDescription
            = String.mk (joinLineFeed ((splitLineFeed jobDescription.data).drop i)))
      ∧ ((∀ line ∈ splitLineFeed jobDescription.data, hasKeyword toLowerCase line = false) →
          extractRequirements toLowerCase jobDescription = jobDescription)
      ∧ (extractRequirements toLowerCase jobDescription).data <:+ jobDescription.data
      ∧ (∀ line : List Char, hasKeyword toLowerCase line = true ↔
          ∃ keyword ∈ requirementKeywords,
            keyword.data <:+: (toLowerCase (String.mk line)).data)
      ∧ String.mk (joinLineFeed (splitLineFeed jobDescription.data)) = jobDescription := by
  have hjoin : String.mk (joinLineFeed (splitLineFeed jobDescription.data)) = jobDescription := by
    rw [joinLineFeed_splitLineFeed]
  refine ⟨?_, ?_, ?_, ?_, ?_, hjoin⟩
  · intro h
    subst h
    rfl
  · intro i line hline hkey hfirst
    have hstart := requirementsStart_some toLowerCase _ 0 i line hline hkey hfirst
    rw [Nat.zero_add] at hstart
    by_cases hempty : jobDescription.data.isEmpty = true
    · have hnil : jobDescription.data = [] := by simpa using hempty
      have hlines : splitLineFeed jobDescription.data = [[]] := by rw [hnil]; rfl
      rw [hlines]
      cases i with
      | zero => simp [extractRequirements, hnil, joinLineFeed]
      | succ i => simp [extractRequirements, hnil, joinLineFeed]
    · simp [extractRequirements, hempty, hstart]
  · intro hnone
    have hstart := requirementsStart_none toLowerCase _ 0 hnone
    by_cases hempty : jobDescription.data.isEmpty = true
    · have hnil : jobDescription.data = [] := by simpa using hempty
      simp only [extractRequirements, hempty, if_true]
      exact String.ext hnil.symm
    · simp [extractRequirements, hempty, hstart]
  · by_cases hempty : jobDescription.data.isEmpty = true
    · simp [extractRequirements, hempty]
    · simp only [extractRequirements, hempty, Bool.false_eq_true, if_false]
      cases hstart : requirementsStart toLowerCase 0 (splitLineFeed jobDescription.data) with
      | none => exact List.suffix_rfl
      | some start =>
        simp only []
        have := joinLineFeed_drop_suffix start (splitLineFeed jobDescription.data)
        rw [joinLineFeed_splitLineFeed] at this
        exact this
  · intro line
    simp [hasKeyword, List.any_eq_true, includes_iff_infix]

/-- Witness of C28: in a description of four lines whose third line is the first
with a keyword, the result starts at the third line; a description without a
keyword is returned whole. -/
theorem extractRequirements_from_first_keyword_line_witness :
    (splitLineFeed "About us\nGreat team\nRequirements:\n- Lean".data)[2]?
        = some "Requirements:".data
      ∧ hasKeyword asciiLower "Requirements:".data = true
      ∧ extractRequirements asciiLower "About us\nGreat team\nRequirements:\n- Lean"
          = "Requirements:\n- Lean"
      ∧ extractRequirements asciiLower "About us\nGreat team" = "About us\nGreat team" :=
  ⟨by decide, by decide,
    (extractRequirements_from_first_keyword_line asciiLower
      "About us\nGreat team\nRequirements:\n- Lean").2.1 2 "Requirements:".data
      (by decide) (by decide)
      (by
        intro j l hj hl
        have hlines : splitLineFeed "About us\nGreat team\nRequirements:\n- Lean".data
            = ["About us".data, "Great team".data, "Requirements:".data, "- Lean".data] := by
          decide
        rw [hlines] at hl
        interval_cases j
        · have e : "About us".data = l := by simpa using hl
          subst e
          decide
        · have e : "Great team".data = l := by simpa using hl
          subst e
          decide),
    (extractRequirements_from_first_keyword_line asciiLower "About us\nGreat team").2.2.1
      (by decide)⟩

end ResumeScanner
